import Mathlib

/-!
# SSDPBoth: the SSDP responder of `src/SSDPBoth.cpp`

A shallow embedding of the responder's request parser (`SSDPBoth::_update`, the
byte loop), of its scheduler (the tail of `_update`) and of the message composer
(`SSDPBoth::_send`), followed by the properties proved about them.

Conventions of the embedding.

* A `char`, and every unsigned machine integer, is a `Nat`; wrap-around is written
  out (`% 256` for the `uint8_t` line-terminator counter, `% 2^32` for `millis()`).
* A `char` array is a `List Nat`; the C string it holds is the part before the first
  NUL (`cstr`).
* `UdpContext` (ESP8266 core) is the queue of received datagrams; `next()` selects
  the next datagram, `read()` pops one byte of it, `flush()` drops the rest of it.
* One call of `_update` happens at one instant `t`: every `millis()` inside the call
  returns `millis t`.
* `random` (Arduino core) is an oracle: `E.random i lo hi` is what the `i`-th call of
  `random(lo, hi)` made during this call of `_update` returns.
-/

namespace SSDPBoth

/-! ## Constants (`#define`s of SSDPBoth.cpp) -/

def SSDP_INTERVAL : Nat := 1200
def SSDP_PORT : Nat := 1900
def SSDP_METHOD_SIZE : Nat := 10
def SSDP_URI_SIZE : Nat := 2
def SSDP_BUFFER_SIZE : Nat := 64
def SSDP_MULTICAST_TTL : Nat := 2

/-- The value of `mcast = IPADDR4_INIT_BYTES(239, 255, 255, 250)`: an `ip_addr_t` keeps the
four octets in memory order, first octet in the low byte of the little-endian word. -/
def mcast : Nat := 239 + 256 * (255 + 256 * (255 + 256 * 250))

/-! ## Bytes and C strings -/

/-- The bytes of a string literal of the source (without the terminating NUL). -/
def bytes (s : String) : List Nat := s.toList.map Char.toNat

/-- The C string held in a `char` array: the bytes before the first NUL. -/
def cstr (a : List Nat) : List Nat := a.takeWhile (fun c => c != 0)

/-- `strcmp(a, b) == 0`: the two C strings are equal. -/
def strcmpEq (a b : List Nat) : Bool := cstr a == cstr b

/-- `strncmp(a, b, n) == 0`: the two C strings agree on their first `n` characters. -/
def strncmpEq (a b : List Nat) (n : Nat) : Bool := cstr (a.take n) == cstr (b.take n)

/-- `tolower` in the C locale: only `A`..`Z` are mapped. -/
def tolower (c : Nat) : Nat := if 65 ≤ c ∧ c ≤ 90 then c + 32 else c

/-- `strcasecmp(a, b) == 0`: the two C strings are equal up to the case of ASCII letters. -/
def strcasecmpEq (a b : List Nat) : Bool := (cstr a).map tolower == (cstr b).map tolower

/-- `isspace` in the C locale. -/
def isspace (c : Nat) : Bool := c == 32 || (9 ≤ c && c ≤ 13)

/-- `isdigit`. -/
def isdigit (c : Nat) : Bool := 48 ≤ c && c ≤ 57

/-- The value of a run of decimal digits, most significant first. -/
def digitsValue (ds : List Nat) : Nat := ds.foldl (fun a d => a * 10 + (d - 48)) 0

/-- `atoi(s)`, as `(int) strtol(s, NULL, 10)` computes it: leading white space is skipped,
one sign is accepted, the digits that follow are read, and the result saturates at the
ends of the 32-bit `long` range. -/
def atoi (a : List Nat) : Int :=
  let s := (cstr a).dropWhile isspace
  match s with
  | 45 :: r => max (-(digitsValue (r.takeWhile isdigit) : Int)) (-2147483648)
  | 43 :: r => min (digitsValue (r.takeWhile isdigit) : Int) 2147483647
  | _ => min (digitsValue (s.takeWhile isdigit) : Int) 2147483647

/-! ## Data model -/

/-- The `ssdp_method_t` enumeration (declared in SSDPBoth.h). -/
inductive ssdp_method_t where
  | NONE | SEARCH | NOTIFY
  deriving DecidableEq, Repr

/-- The parser states: `typedef enum {METHOD, URI, PROTO, KEY, VALUE, ABORT} states`. -/
inductive states where
  | METHOD | URI | PROTO | KEY | VALUE | ABORT
  deriving DecidableEq, Repr

/-- The recognised headers: `typedef enum {START, MAN, ST, MX} headers`. -/
inductive headers where
  | START | MAN | ST | MX
  deriving DecidableEq, Repr

/-- An `ip_info` of the network stack: address, netmask and gateway of one interface. -/
structure ip_info where
  ip : Nat
  netmask : Nat
  gw : Nat
  deriving DecidableEq, Repr

/-- The members of class `SSDPBoth` that `_update`, `_send` and `manage` use. -/
structure Responder where
  _pending : Bool
  _delay : Nat
  _notify_time : Nat
  _process_time : Nat
  _respondToAddr : Nat
  _respondToPort : Nat
  _hideSTA : Bool
  _hideAP : Bool
  _sta : ip_info
  _ap : ip_info
  _port : Nat
  _deviceType : List Nat
  _schemaURL : List Nat
  _uuid : List Nat
  _modelName : List Nat
  _modelNumber : List Nat
  deriving DecidableEq, Repr

/-- What the source takes from outside the file: the width in bits of the unsigned member
`_delay` (declared in SSDPBoth.h) and the outcomes of `random`. -/
structure Env where
  delayBits : Nat
  random : Nat → Int → Int → Int

/-- The value of `millis()` at time `t` (milliseconds since start): an `unsigned long`. -/
def millis (t : Nat) : Nat := t % 4294967296

/-- Subtraction of two `unsigned long`s. -/
def subU32 (a b : Nat) : Nat := (a % 4294967296 + 4294967296 - b % 4294967296) % 4294967296

/-- The locals of the parser loop of `_update`, together with the object they act on.
`writes` is a ghost log of the indices of `buffer` that were stored to, `draws` a ghost
count of the calls of `random`. -/
structure Loop where
  self : Responder
  method : ssdp_method_t
  state : states
  header : headers
  cursor : Nat
  cr : Nat
  buffer : List Nat
  writes : List Nat
  draws : Nat
  deriving DecidableEq, Repr

/-- The pair of stores `buffer[cursor++] = c; buffer[cursor] = 0`. -/
def store (l : Loop) (c : Nat) : Loop :=
  { l with
    buffer := (l.buffer.set l.cursor c).set (l.cursor + 1) 0
    cursor := l.cursor + 1
    writes := l.writes ++ [l.cursor, l.cursor + 1] }

/-- The `switch (header)` run when a header value is complete (`case VALUE`, `cr == 2`). -/
def valueDone (E : Env) (t : Nat) (l : Loop) : Loop :=
  match l.header with
  | headers.START => l
  | headers.MAN => l
  | headers.ST =>
    let l1 := if strcmpEq l.buffer (bytes "ssdp:all") then l else { l with state := states.ABORT }
    if strcasecmpEq l1.buffer l1.self._deviceType then
      { l1 with self := { l1.self with _pending := true, _process_time := millis t }
                state := states.KEY }
    else l1
  | headers.MX =>
    { l with
      self := { l.self with
        _delay := ((E.random l.draws 0 (atoi l.buffer) * 1000) % (2 : Int) ^ E.delayBits).toNat }
      draws := l.draws + 1 }

/-- The header recognition of `case VALUE`, done while `header == START`. -/
def recognise (l : Loop) : Loop :=
  if l.header = headers.START then
    if strncmpEq l.buffer (bytes "MA") 2 then { l with header := headers.MAN }
    else if strcmpEq l.buffer (bytes "ST") then { l with header := headers.ST }
    else if strcmpEq l.buffer (bytes "MX") then { l with header := headers.MX }
    else l
  else l

/-- One iteration of `while (_server->getSize() > 0)` on the byte `c` just read. -/
def step (E : Env) (t : Nat) (l0 : Loop) (c : Nat) : Loop :=
  let l := { l0 with cr := if c = 13 ∨ c = 10 then (l0.cr + 1) % 256 else 0 }
  match l.state with
  | states.METHOD =>
    if c = 32 then
      let m := if strcmpEq l.buffer (bytes "M-SEARCH") then ssdp_method_t.SEARCH else l.method
      { l with method := m
               state := if m = ssdp_method_t.NONE then states.ABORT else states.URI
               cursor := 0 }
    else if l.cursor < SSDP_METHOD_SIZE - 1 then store l c
    else l
  | states.URI =>
    if c = 32 then
      { l with state := if strcmpEq l.buffer (bytes "*") then states.PROTO else states.ABORT
               cursor := 0 }
    else if l.cursor < SSDP_URI_SIZE - 1 then store l c
    else l
  | states.PROTO =>
    if l.cr = 2 then { l with state := states.KEY, cursor := 0 } else l
  | states.KEY =>
    if l.cr = 4 then
      { l with self := { l.self with _pending := true, _process_time := millis t } }
    else if c = 32 then { l with cursor := 0, state := states.VALUE }
    else if c ≠ 13 ∧ c ≠ 10 ∧ c ≠ 58 ∧ l.cursor < SSDP_BUFFER_SIZE - 1 then store l c
    else l
  | states.VALUE =>
    if l.cr = 2 then
      let l1 := valueDone E t l
      if l1.state ≠ states.ABORT then
        { l1 with state := states.KEY, header := headers.START, cursor := 0 }
      else l1
    else if c ≠ 13 ∧ c ≠ 10 then
      let l1 := recognise l
      if l1.cursor < SSDP_BUFFER_SIZE - 1 then store l1 c else l1
    else l
  | states.ABORT =>
    { l with self := { l.self with _pending := false, _delay := 0 } }

/-- The locals as `_update` declares them before the loop, `buffer` zeroed. -/
def initLoop (s : Responder) : Loop :=
  { self := s, method := ssdp_method_t.NONE, state := states.METHOD, header := headers.START
    cursor := 0, cr := 0, buffer := List.replicate SSDP_BUFFER_SIZE 0, writes := [], draws := 0 }

/-- The whole loop `while (_server->getSize() > 0)` over the bytes of one datagram. -/
def parseLoop (E : Env) (t : Nat) (l : Loop) (d : List Nat) : Loop := d.foldl (step E t) l

/-! ## The transport (`UdpContext`) -/

/-- A received datagram: the sender captured by the transport and the unread payload. -/
structure Datagram where
  remoteAddr : Nat
  remotePort : Nat
  payload : List Nat
  deriving DecidableEq, Repr

/-- The receive side of `UdpContext`: the datagram selected by the last `next()` and the
datagrams queued behind it. -/
structure UdpContext where
  current : Option Datagram
  queue : List Datagram
  deriving DecidableEq, Repr

/-- `_server->next()`: selects the next queued datagram; false when there is none. -/
def UdpContext.next (u : UdpContext) : UdpContext × Bool :=
  match u.queue with
  | [] => ({ current := none, queue := [] }, false)
  | d :: q => ({ current := some d, queue := q }, true)

/-- `_server->getSize()`: the unread bytes of the selected datagram. -/
def UdpContext.getSize (u : UdpContext) : Nat :=
  match u.current with
  | none => 0
  | some d => d.payload.length

/-- `_server->flush()`: drops the unread bytes of the selected datagram. -/
def UdpContext.flush (u : UdpContext) : UdpContext :=
  match u.current with
  | none => u
  | some d => { u with current := some { d with payload := [] } }

/-- `_server->getRemoteAddress()`. -/
def UdpContext.getRemoteAddress (u : UdpContext) : Nat :=
  match u.current with
  | none => 0
  | some d => d.remoteAddr

/-- `_server->getRemotePort()`. -/
def UdpContext.getRemotePort (u : UdpContext) : Nat :=
  match u.current with
  | none => 0
  | some d => d.remotePort

/-- The loop `while (_server->getSize() > 0) { char c = _server->read(); ... }`: every unread
byte of the selected datagram goes through `step`, in order, and none is left. -/
def readAll (E : Env) (t : Nat) (l : Loop) (u : UdpContext) : Loop × UdpContext :=
  match u.current with
  | none => (l, u)
  | some d => (parseLoop E t l d.payload, { u with current := some { d with payload := [] } })

/-- The loop `while (_server->next()) _server->flush();`, with the number of iterations
bounded by `fuel`. -/
def drainLoop : Nat → UdpContext → UdpContext
  | 0, u => u
  | fuel + 1, u =>
    match u.next with
    | (u1, true) => drainLoop fuel u1.flush
    | (u1, false) => u1

/-- The drain loop with fuel for one `next()` per queued datagram and the final failing one. -/
def drain (u : UdpContext) : UdpContext := drainLoop (u.queue.length + 1) u

/-! ## The composer (`_send`) -/

/-- What `_server->send(addr, port)` hands to the network: the appended buffer and the
destination. -/
structure Packet where
  payload : List Nat
  addr : Nat
  port : Nat
  deriving DecidableEq, Repr

def _ssdp_response_template : List Nat := bytes "HTTP/1.1 200 OK\r\nEXT:\r\n"

def _ssdp_notify_template : List Nat :=
  bytes "NOTIFY * HTTP/1.1\r\nHOST: 239.255.255.250:1900\r\nNTS: ssdp:alive\r\n"

/-- The decimal digits of `n`, most significant first, computed with `fuel` divisions. -/
def decimal : Nat → Nat → List Nat
  | 0, _ => []
  | fuel + 1, n => if n < 10 then [48 + n] else decimal fuel (n / 10) ++ [48 + n % 10]

/-- The conversion `%u` (and `%d` of a non-negative value). -/
def fmtU (n : Nat) : List Nat := decimal (n + 1) n

/-- `IPSTR` applied to `IP2STR(a)`: the four octets of `a` in memory order, dotted. -/
def ipstr (a : Nat) : List Nat :=
  fmtU (a % 256) ++ bytes "." ++ fmtU (a / 256 % 256) ++ bytes "." ++
    fmtU (a / 65536 % 256) ++ bytes "." ++ fmtU (a / 16777216 % 256)

/-- `ip_addr_netcmp(addr1, addr2, mask)` of lwIP. -/
def ip_addr_netcmp (addr1 addr2 mask : Nat) : Bool := (addr1 &&& mask) == (addr2 &&& mask)

/-- The interface address `_send` passes to `IP2STR` for the `LOCATION` header:
`!(_respondToAddr.addr) || (_sta.ip.addr && ip_addr_netcmp(...)) ? &_sta.ip : &_ap.ip`. -/
def locationAddr (s : Responder) : Nat :=
  if s._respondToAddr = 0 ∨
      (s._sta.ip ≠ 0 ∧ ip_addr_netcmp s._respondToAddr s._sta.ip s._sta.netmask = true) then
    s._sta.ip
  else s._ap.ip

/-- Modelled from the spec: the macro `SN` is declared in SSDPBoth.h, which is not among the
sources; after "builds a single SSDP message by template substitution" and "hands the
rendered byte buffer to the external transport" it is taken to leave in `buffer` the whole
text its format renders, `bufsize` being the length of that text. With that, this is the
buffer `SN(buffer, bufsize, _ssdp_packet_template, ...)` fills in `_send`: the template of
lines 53-60 with the arguments of lines 245-254 (`%s` prints a C string, `%u` and the four
`%d` of `IPSTR` print decimal numbers). -/
def packetText (s : Responder) (method : ssdp_method_t) : List Nat :=
  (if method = ssdp_method_t.NONE then _ssdp_response_template else _ssdp_notify_template) ++
  bytes "CACHE-CONTROL: max-age=" ++ fmtU SSDP_INTERVAL ++ bytes "\r\n" ++
  bytes "SERVER: ESP8266/1.0 UPNP/1.1 " ++ cstr s._modelName ++ bytes "/" ++
    cstr s._modelNumber ++ bytes "\r\n" ++
  bytes "USN: uuid:" ++ cstr s._uuid ++ bytes "\r\n" ++
  (if method = ssdp_method_t.NONE then bytes "ST" else bytes "NT") ++ bytes ": " ++
    cstr s._deviceType ++ bytes "\r\n" ++
  bytes "LOCATION: http://" ++ ipstr (locationAddr s) ++ bytes ":" ++ fmtU s._port ++
    bytes "/" ++ cstr s._schemaURL ++ bytes "\r\n" ++
  bytes "\r\n"

/-- The single `_server->send` of `SSDPBoth::_send(method)`. -/
def _send (s : Responder) (method : ssdp_method_t) : Packet :=
  if method = ssdp_method_t.NONE then
    { payload := packetText s method, addr := s._respondToAddr, port := s._respondToPort }
  else
    { payload := packetText s method, addr := mcast, port := SSDP_PORT }

/-! ## One call of `_update` -/

/-- Lines 270-382: `if (!_pending && _server->next()) { ... parse the datagram ... }`. -/
def parsePhase (E : Env) (t : Nat) (s : Responder) (u : UdpContext) : Responder × UdpContext :=
  if s._pending then (s, u)
  else
    match u.next with
    | (u1, false) => (s, u1)
    | (u1, true) =>
      let s1 := { s with _respondToAddr := u1.getRemoteAddress
                         _respondToPort := u1.getRemotePort }
      let r := readAll E t (initLoop s1) u1
      (r.1.self, r.2)

/-- Lines 384-390: the response that is due, else the announcement that is due. -/
def schedulePhase (t : Nat) (s : Responder) : Responder × List Packet :=
  if s._pending = true ∧ subU32 (millis t) s._process_time > s._delay then
    let s1 := { s with _pending := false, _delay := 0 }
    (s1, [_send s1 ssdp_method_t.NONE])
  else if s._notify_time = 0 ∨ subU32 (millis t) s._notify_time > SSDP_INTERVAL * 1000 then
    let s1 := { s with _notify_time := millis t }
    (s1, [_send s1 ssdp_method_t.NOTIFY])
  else (s, [])

/-- Lines 392-395: `if (_pending) { while (_server->next()) _server->flush(); }`. -/
def drainPhase (s : Responder) (u : UdpContext) : UdpContext :=
  if s._pending then drain u else u

/-- `SSDPBoth::_update()` at time `t`: the new members, the new transport state and the
packets sent, in order. -/
def _update (E : Env) (t : Nat) (s : Responder) (u : UdpContext) :
    Responder × UdpContext × List Packet :=
  let p := parsePhase E t s u
  let q := schedulePhase t p.1
  (q.1, drainPhase q.1 p.2, q.2)

/-- Successive calls of `_update` at the times `ts`, with the packets of all the calls. -/
def updates (E : Env) : List Nat → Responder → UdpContext → Responder × UdpContext × List Packet
  | [], s, u => (s, u, [])
  | t :: ts, s, u =>
    let r := _update E t s u
    let r2 := updates E ts r.1 r.2.1
    (r2.1, r2.2.1, r.2.2 ++ r2.2.2)

/-! ## Requests, sample inputs and invariants used in the statements -/

/-- The scan buffer holds the text `acc`, NUL-terminated, and the cursor stands after it. -/
def Filled (l : Loop) (acc : List Nat) : Prop :=
  l.cursor = acc.length ∧ l.buffer.length = 64 ∧ ∃ rest, l.buffer = acc ++ 0 :: rest

/-- The locals after a run of stores: only the cursor, the buffer and the log differ. -/
def upd (l : Loop) (cur : Nat) (buf w : List Nat) : Loop :=
  { l with cursor := cur, buffer := buf, writes := w }

/-- The request line and the `HOST` and `MAN` headers of the specification's search request. -/
def searchHead : List Nat :=
  bytes "M-SEARCH * HTTP/1.1\r\nHOST: 239.255.255.250:1900\r\nMAN: \"ssdp:discover\"\r\n"

/-- The search request of the specification, `ST: ssdp:all`, with `MX: n`. -/
def searchAll (n : Nat) : List Nat :=
  bytes "M-SEARCH * HTTP/1.1\r\nHOST: 239.255.255.250:1900\r\nMAN: \"ssdp:discover\"\r\nST: ssdp:all\r\nMX: "
    ++ fmtU n ++ bytes "\r\n\r\n"

/-- The documented range of Arduino's `random(0, hi)`: a value in `[0, hi)` when `0 < hi`. -/
def RandomInRange (E : Env) : Prop :=
  ∀ (i : Nat) (hi : Int), 0 < hi → 0 ≤ E.random i 0 hi ∧ E.random i 0 hi < hi

/-- The members as the constructor `SSDPBoth::SSDPBoth()` leaves them, for a device whose
`_uuid` text is `uuid`, with the interface snapshots `sta` and `ap` that `begin()` takes. -/
def constructed (uuid : List Nat) (sta ap : ip_info) : Responder :=
  { _pending := false, _delay := 0, _notify_time := 0, _process_time := 0
    _respondToAddr := 0, _respondToPort := 0, _hideSTA := false, _hideAP := false
    _sta := sta, _ap := ap, _port := 80
    _deviceType := bytes "upnp:rootdevice", _schemaURL := bytes "description.xml"
    _uuid := uuid, _modelName := [], _modelNumber := [] }

/-- An environment with a 16-bit `_delay` in which `random(lo, hi)` returns `hi - 1`. -/
def sampleEnv : Env :=
  { delayBits := 16, random := fun _ lo hi => if lo < hi then hi - 1 else lo }

/-- A responder on station 192.168.1.10/24 and access point 192.168.4.1/24. -/
def sampleResponder : Responder :=
  constructed (bytes "38323636-4558-4dda-9188-cda0e6012345")
    ⟨192 + 256 * (168 + 256 * (1 + 256 * 10)), 255 + 256 * (255 + 256 * 255), 0⟩
    ⟨192 + 256 * (168 + 256 * (4 + 256 * 1)), 255 + 256 * (255 + 256 * 255), 0⟩

/-- The search request of the specification with the search target `v` and `MX: 3`. -/
def searchFor (v : List Nat) : List Nat :=
  bytes "M-SEARCH * HTTP/1.1\r\nHOST: 239.255.255.250:1900\r\nMAN: \"ssdp:discover\"\r\nST: "
    ++ v ++ bytes "\r\nMX: 3\r\n\r\n"

/-- A visible character, a space, CR or LF. -/
def isTextByte (c : Nat) : Bool := (33 ≤ c && c ≤ 126) || c == 32 || c == 13 || c == 10

/-- The method token of a datagram: the bytes before its first space, or all of it. -/
def methodToken (d : List Nat) : List Nat := d.takeWhile (fun c => c != 32)

/-- The bounds the parser keeps: every logged store index is inside the 64-byte buffer, the
buffer keeps its size, and the cursor is at most 9 in `METHOD`, 1 in `URI` and 63 anywhere. -/
def InBounds (l : Loop) : Prop :=
  (∀ i ∈ l.writes, i < SSDP_BUFFER_SIZE) ∧ l.buffer.length = SSDP_BUFFER_SIZE ∧
  (l.state = states.METHOD → l.cursor ≤ SSDP_METHOD_SIZE - 1) ∧
  (l.state = states.URI → l.cursor ≤ SSDP_URI_SIZE - 1) ∧
  l.cursor ≤ SSDP_BUFFER_SIZE - 1

/-- The sample responder with a response pending for 192.168.1.77:50000, taken at
`millis() = 0` and due after 1000 ms; nothing has been announced yet. -/
def samplePending : Responder :=
  { sampleResponder with
    _pending := true, _delay := 1000, _process_time := 0
    _respondToAddr := 192 + 256 * (168 + 256 * (1 + 256 * 77)), _respondToPort := 50000 }

/-- The sample responder with the same response pending and an announcement made at
`millis() = 1`. -/
def samplePendingAnnounced : Responder := { samplePending with _notify_time := 1 }

/-- A second well-formed search request, from 192.168.4.2:40000. -/
def secondSearch : Datagram :=
  ⟨192 + 256 * (168 + 256 * (4 + 256 * 2)), 40000, searchAll 1⟩

/-- The `LOCATION` rule as the specification words it: the station address if the source
lies in the station interface's subnet and that interface is visible, the access-point
address otherwise. -/
def locationRule (s : Responder) : Nat :=
  if (s._respondToAddr &&& s._sta.netmask) = (s._sta.ip &&& s._sta.netmask) ∧ s._hideSTA = false
  then s._sta.ip else s._ap.ip

/-- The sample responder with the station interface hidden and a source in the station
subnet captured. -/
def sampleHiddenStation : Responder := { samplePending with _hideSTA := true }

/-- A responder without station interface (address and netmask 0) that captured the source
192.168.4.2 on its access point. -/
def sampleNoStation : Responder :=
  { constructed (bytes "38323636-4558-4dda-9188-cda0e6012345") ⟨0, 0, 0⟩
      ⟨192 + 256 * (168 + 256 * (4 + 256 * 1)), 255 + 256 * (255 + 256 * 255), 0⟩ with
    _respondToAddr := 192 + 256 * (168 + 256 * (4 + 256 * 2)), _respondToPort := 40000 }

/-! ## Interface visibility (`manage`) -/

/-- The `ssdp_manage_t` enumeration (declared in SSDPBoth.h): the requests `manage` tests. -/
inductive ssdp_manage_t where
  | STA_READ | AP_READ | STA_TOGGLE | STA_SHOW | STA_HIDE | AP_TOGGLE | AP_SHOW | AP_HIDE
  deriving DecidableEq, Repr

/-- `SSDPBoth::manage(manage)`: the new members and the returned `int`. The second group of
tests reads `_hideSTA` as the first group left it. The two flags (declared in SSDPBoth.h)
only ever hold 0 or 1, so `1-_hideSTA` and `!_hideAP` both are the negation of a `Bool`. -/
def manage (s : Responder) (m : ssdp_manage_t) : Responder × Int :=
  if m = ssdp_manage_t.STA_READ then (s, if s._hideSTA then 1 else 0)
  else if m = ssdp_manage_t.AP_READ then (s, if s._hideAP then 1 else 0)
  else
    let s1 :=
      if s._hideAP = false then
        let a := if m = ssdp_manage_t.STA_TOGGLE then { s with _hideSTA := !s._hideSTA } else s
        let b := if m = ssdp_manage_t.STA_SHOW then { a with _hideSTA := false } else a
        if m = ssdp_manage_t.STA_HIDE then { b with _hideSTA := true } else b
      else s
    let s2 :=
      if s1._hideSTA = false then
        let a := if m = ssdp_manage_t.AP_TOGGLE then { s1 with _hideAP := !s1._hideAP } else s1
        let b := if m = ssdp_manage_t.AP_SHOW then { a with _hideAP := false } else a
        if m = ssdp_manage_t.AP_HIDE then { b with _hideAP := true } else b
      else s1
    (s2, -1)

/-- The members after a sequence of `manage` requests, in order. -/
def manageAll (s : Responder) (ms : List ssdp_manage_t) : Responder :=
  ms.foldl (fun r m => (manage r m).1) s

/-- The sample responder with the access-point interface hidden. -/
def sampleHiddenAP : Responder := { sampleResponder with _hideAP := true }

/-- The datagram `M-SEARCH * HTTP/1.1`, `MX: 3`, blank line, `ST: foo`, which ends with the
line terminator of the rejected `ST` header. -/
def abortAtEnd : List Nat := bytes "M-SEARCH * HTTP/1.1\r\nMX: 3\r\n\r\nST: foo\r\n"

/-- The specification's request shape with a first header `FOO` of value `v`. -/
def searchWithFoo (v : String) : List Nat :=
  bytes "M-SEARCH * HTTP/1.1\r\nFOO: " ++ bytes v ++ bytes "\r\nST: ssdp:all\r\nMX: 3\r\n\r\n"

/-- The dotted-decimal text `a.b.c.d`. -/
def dotted (a b c d : Nat) : List Nat :=
  fmtU a ++ bytes "." ++ fmtU b ++ bytes "." ++ fmtU c ++ bytes "." ++ fmtU d

/-- The text `x` appears verbatim, as consecutive bytes, in `l`. -/
def Occurs (x l : List Nat) : Prop := ∃ pre post, l = pre ++ x ++ post

/-! # Theorems -/

/-! ## Decimal text and `atoi` -/

theorem digitsValue_append (xs : List Nat) (d : Nat) :
    digitsValue (xs ++ [d]) = digitsValue xs * 10 + (d - 48) := by
  simp [digitsValue, List.foldl_append]

theorem decimal_spec : ∀ (fuel n : Nat), n < fuel →
    (∀ c ∈ decimal fuel n, 48 ≤ c ∧ c ≤ 57) ∧ decimal fuel n ≠ [] ∧
      digitsValue (decimal fuel n) = n := by
  intro fuel
  induction fuel with
  | zero => intro n h; omega
  | succ k ih =>
    intro n h
    unfold decimal
    by_cases h10 : n < 10
    · simp only [h10, if_true]
      refine ⟨?_, by simp, ?_⟩
      · intro c hc
        simp at hc
        omega
      · simp [digitsValue]
    · simp only [h10, if_false]
      have hk : n / 10 < k := by omega
      obtain ⟨h1, _, h3⟩ := ih (n / 10) hk
      refine ⟨?_, by simp, ?_⟩
      · intro c hc
        rcases List.mem_append.mp hc with hc | hc
        · exact h1 c hc
        · simp at hc
          omega
      · rw [digitsValue_append, h3]
        omega

theorem fmtU_digits (n : Nat) : ∀ c ∈ fmtU n, 48 ≤ c ∧ c ≤ 57 :=
  (decimal_spec (n + 1) n (Nat.lt_succ_self n)).1

theorem fmtU_ne_nil (n : Nat) : fmtU n ≠ [] :=
  (decimal_spec (n + 1) n (Nat.lt_succ_self n)).2.1

theorem digitsValue_fmtU (n : Nat) : digitsValue (fmtU n) = n :=
  (decimal_spec (n + 1) n (Nat.lt_succ_self n)).2.2

theorem cstr_append_zero (a rest : List Nat) (h : ∀ c ∈ a, c ≠ 0) :
    cstr (a ++ 0 :: rest) = a := by
  induction a with
  | nil => simp [cstr]
  | cons x xs ih =>
    have hx : x ≠ 0 := h x (by simp)
    have := ih (fun c hc => h c (by simp [hc]))
    simp only [cstr] at this ⊢
    simp [List.takeWhile_cons, hx, this]

theorem takeWhile_all (p : Nat → Bool) (a : List Nat) (h : ∀ c ∈ a, p c = true) :
    a.takeWhile p = a := by
  induction a with
  | nil => rfl
  | cons x xs ih =>
    simp [List.takeWhile_cons, h x (by simp), ih (fun c hc => h c (by simp [hc]))]

theorem atoi_digits (ds rest : List Nat) (hne : ds ≠ [])
    (hd : ∀ c ∈ ds, 48 ≤ c ∧ c ≤ 57) (hv : digitsValue ds ≤ 2147483647) :
    atoi (ds ++ 0 :: rest) = (digitsValue ds : Int) := by
  have hz : ∀ c ∈ ds, c ≠ 0 := fun c hc => by have := hd c hc; omega
  have htw : ds.takeWhile isdigit = ds :=
    takeWhile_all _ _ (fun c hc => by have := hd c hc; simp [isdigit]; omega)
  unfold atoi
  rw [cstr_append_zero _ _ hz]
  cases ds with
  | nil => exact absurd rfl hne
  | cons x xs =>
    have hx := hd x (by simp)
    have hsp : isspace x = false := by
      simp [isspace]; omega
    have h45 : x ≠ 45 := by omega
    have h43 : x ≠ 43 := by omega
    simp only [List.dropWhile_cons, hsp]
    simp only [Bool.false_eq_true, if_false]
    split
    · rename_i r heq
      injection heq with h1 h2; omega
    · rename_i r heq
      injection heq with h1 h2; omega
    · rw [htw]
      have : (digitsValue (x :: xs) : Int) ≤ 2147483647 := by exact_mod_cast hv
      omega

theorem atoi_fmtU (n : Nat) (rest : List Nat) (hn : n ≤ 2147483647) :
    atoi (fmtU n ++ 0 :: rest) = (n : Int) := by
  rw [atoi_digits _ _ (fmtU_ne_nil n) (fmtU_digits n) (by rw [digitsValue_fmtU]; exact hn),
    digitsValue_fmtU]

theorem decimal_length : ∀ (fuel n k : Nat), 0 < k → n < 10 ^ k → (decimal fuel n).length ≤ k := by
  intro fuel
  induction fuel with
  | zero => intro n k hk _; simp [decimal]
  | succ f ih =>
    intro n k hk hn
    unfold decimal
    by_cases h10 : n < 10
    · simp only [h10, if_true]
      simpa using hk
    · simp only [h10, if_false]
      obtain ⟨j, rfl⟩ : ∃ j, k = j + 1 := ⟨k - 1, by omega⟩
      have hj : 0 < j := by
        rcases Nat.eq_zero_or_pos j with h0 | h0
        · subst h0; simp at hn; omega
        · exact h0
      have hdiv : n / 10 < 10 ^ j := by
        rw [Nat.div_lt_iff_lt_mul (by decide)]
        rw [pow_succ] at hn
        exact hn
      have := ih (n / 10) j hj hdiv
      simp only [List.length_append, List.length_singleton]
      omega

theorem fmtU_length (n : Nat) (hn : n ≤ 2147483647) : (fmtU n).length ≤ 10 :=
  decimal_length (n + 1) n 10 (by decide) (by omega)

/-! ## Stores into the scan buffer -/

theorem set_set_eq (c : Nat) : ∀ (b : List Nat) (k : Nat), k + 1 < b.length →
    (b.set k c).set (k + 1) 0 = b.take k ++ c :: 0 :: b.drop (k + 2) := by
  intro b
  induction b with
  | nil => intro k h; simp at h
  | cons x xs ih =>
    intro k h
    cases k with
    | zero =>
      cases xs with
      | nil => simp at h
      | cons y ys => simp
    | succ j =>
      have hj : j + 1 < xs.length := by simpa using h
      simp [ih j hj]

theorem store_first (l : Loop) (c : Nat) (hcur : l.cursor = 0) (hlen : l.buffer.length = 64) :
    Filled (store l c) [c] := by
  refine ⟨by simp [store, hcur], by simp [store, hlen], l.buffer.drop 2, ?_⟩
  simp only [store, hcur]
  rw [set_set_eq c l.buffer 0 (by omega)]
  simp

theorem store_next (l : Loop) (acc : List Nat) (c : Nat) (hf : Filled l acc)
    (hlt : acc.length < 63) : Filled (store l c) (acc ++ [c]) := by
  obtain ⟨hcur, hlen, rest, hb⟩ := hf
  refine ⟨by simp [store, hcur], by simp [store, hlen], l.buffer.drop (acc.length + 2), ?_⟩
  simp only [store, hcur]
  rw [set_set_eq c l.buffer acc.length (by omega)]
  have : l.buffer.take acc.length = acc := by rw [hb]; simp
  rw [this]
  simp

theorem Filled.cstr_eq {l : Loop} {acc : List Nat} (hf : Filled l acc) (hz : ∀ c ∈ acc, c ≠ 0) :
    cstr l.buffer = acc := by
  obtain ⟨_, _, rest, hb⟩ := hf
  rw [hb, cstr_append_zero _ _ hz]

theorem parseLoop_append (E : Env) (t : Nat) (l : Loop) (a b : List Nat) :
    parseLoop E t l (a ++ b) = parseLoop E t (parseLoop E t l a) b := by
  simp [parseLoop, List.foldl_append]

theorem parseLoop_cons (E : Env) (t : Nat) (l : Loop) (c : Nat) (cs : List Nat) :
    parseLoop E t l (c :: cs) = parseLoop E t (step E t l c) cs := rfl

theorem parseLoop_nil (E : Env) (t : Nat) (l : Loop) : parseLoop E t l [] = l := rfl

theorem store_eq_upd (l : Loop) (c : Nat) :
    store l c = upd l (l.cursor + 1) ((l.buffer.set l.cursor c).set (l.cursor + 1) 0)
      (l.writes ++ [l.cursor, l.cursor + 1]) := rfl

theorem upd_upd (l : Loop) (a a2 : Nat) (b w b2 w2 : List Nat) :
    upd (upd l a b w) a2 b2 w2 = upd l a2 b2 w2 := rfl

theorem upd_self (l : Loop) : upd l l.cursor l.buffer l.writes = l := rfl

theorem step_value_char (E : Env) (t : Nat) (l : Loop) (c : Nat)
    (hst : l.state = states.VALUE) (hh : l.header ≠ headers.START) (hcr : l.cr = 0)
    (hc : c ≠ 13 ∧ c ≠ 10) (hcur : l.cursor < 63) : step E t l c = store l c := by
  obtain ⟨self, method, state, header, cursor, cr, buffer, writes, draws⟩ := l
  simp only at hst hh hcr hcur
  subst hst hcr
  simp [step, hc.1, hc.2, recognise, hh, SSDP_BUFFER_SIZE, hcur]

theorem value_run (E : Env) (t : Nat) : ∀ (cs : List Nat) (l : Loop) (acc : List Nat),
    l.state = states.VALUE → l.header ≠ headers.START → l.cr = 0 → Filled l acc →
    acc.length + cs.length ≤ 63 → (∀ c ∈ cs, c ≠ 13 ∧ c ≠ 10) →
    ∃ buf w, parseLoop E t l cs = upd l (acc ++ cs).length buf w ∧
      Filled (upd l (acc ++ cs).length buf w) (acc ++ cs) := by
  intro cs
  induction cs with
  | nil =>
    intro l acc _ _ _ hf _ _
    refine ⟨l.buffer, l.writes, ?_, ?_⟩
    · have : (acc ++ []).length = l.cursor := by simp [hf.1]
      rw [this, upd_self]; rfl
    · have : (acc ++ []).length = l.cursor := by simp [hf.1]
      rw [this, upd_self]; simpa using hf
  | cons c cs ih =>
    intro l acc hst hh hcr hf hlen hcs
    have hc := hcs c (by simp)
    have hlt : acc.length < 63 := by simp at hlen; omega
    have hstep := step_value_char E t l c hst hh hcr hc (by rw [hf.1]; exact hlt)
    have hf2 := store_next l acc c hf hlt
    obtain ⟨buf, w, h1, h2⟩ := ih (store l c) (acc ++ [c]) (by simpa [store] using hst)
      (by simpa [store] using hh) (by simpa [store] using hcr) hf2
      (by simp at hlen ⊢; omega) (fun x hx => hcs x (by simp [hx]))
    refine ⟨buf, w, ?_, ?_⟩
    · rw [parseLoop_cons, hstep, h1, store_eq_upd, upd_upd]; simp
    · rw [store_eq_upd, upd_upd] at h2; simpa using h2

theorem recognise_frame (l : Loop) : recognise l = { l with header := (recognise l).header } := by
  unfold recognise
  split
  · split
    · rfl
    · split
      · rfl
      · split <;> rfl
  · rfl

theorem step_value_first (E : Env) (t : Nat) (l : Loop) (c : Nat)
    (hst : l.state = states.VALUE) (hcr : l.cr = 0)
    (hc : c ≠ 13 ∧ c ≠ 10) (hcur : l.cursor = 0) : step E t l c = store (recognise l) c := by
  obtain ⟨self, method, state, header, cursor, cr, buffer, writes, draws⟩ := l
  simp only at hst hcr hcur
  subst hst hcr hcur
  have : (recognise ⟨self, method, states.VALUE, header, 0, 0, buffer, writes, draws⟩).cursor = 0 := by
    rw [recognise_frame]
  simp [step, hc.1, hc.2, SSDP_BUFFER_SIZE, this]

/-- The text of a header value goes to the scan buffer: the first byte triggers the
recognition of the header name left in the buffer, the following ones are appended. -/
theorem value_text (E : Env) (t : Nat) (l : Loop) (c : Nat) (cs : List Nat)
    (hst : l.state = states.VALUE) (hcr : l.cr = 0) (hcur : l.cursor = 0)
    (hlen : l.buffer.length = 64) (hh : (recognise l).header ≠ headers.START)
    (hl : cs.length + 1 ≤ 63) (hcs : ∀ x ∈ c :: cs, x ≠ 13 ∧ x ≠ 10) :
    ∃ buf w, parseLoop E t l (c :: cs) =
        { l with header := (recognise l).header, cursor := cs.length + 1, buffer := buf, writes := w } ∧
      buf.length = 64 ∧ ∃ rest, buf = c :: cs ++ 0 :: rest := by
  have hc := hcs c (by simp)
  have hstep := step_value_first E t l c hst hcr hc hcur
  have hrl : recognise l = { l with header := (recognise l).header } := recognise_frame l
  have hf : Filled (store (recognise l) c) [c] :=
    store_first _ c (by rw [hrl]; exact hcur) (by rw [hrl]; exact hlen)
  obtain ⟨buf, w, h1, h2⟩ := value_run E t cs (store (recognise l) c) [c]
    (by rw [hrl]; simpa [store] using hst) (by simpa [store] using hh)
    (by rw [hrl]; simpa [store] using hcr) hf (by simp; omega)
    (fun x hx => hcs x (by simp [hx]))
  refine ⟨buf, w, ?_, ?_, ?_⟩
  · rw [parseLoop_cons, hstep, h1, store_eq_upd, upd_upd, hrl]
    simp [upd, Nat.add_comm]
  · simpa [upd] using h2.2.1
  · obtain ⟨rest, hr⟩ := h2.2.2
    exact ⟨rest, by simpa [upd] using hr⟩

theorem step_key_char (E : Env) (t : Nat) (l : Loop) (c : Nat)
    (hst : l.state = states.KEY) (hcr : l.cr = 0)
    (hc : c ≠ 13 ∧ c ≠ 10 ∧ c ≠ 58 ∧ c ≠ 32) (hcur : l.cursor < 63) :
    step E t l c = store l c := by
  obtain ⟨self, method, state, header, cursor, cr, buffer, writes, draws⟩ := l
  simp only at hst hcr hcur
  subst hst hcr
  simp [step, hc.1, hc.2.1, hc.2.2.1, hc.2.2.2, SSDP_BUFFER_SIZE, hcur]

theorem key_run (E : Env) (t : Nat) : ∀ (cs : List Nat) (l : Loop) (acc : List Nat),
    l.state = states.KEY → l.cr = 0 → Filled l acc →
    acc.length + cs.length ≤ 63 → (∀ c ∈ cs, c ≠ 13 ∧ c ≠ 10 ∧ c ≠ 58 ∧ c ≠ 32) →
    ∃ buf w, parseLoop E t l cs = upd l (acc ++ cs).length buf w ∧
      Filled (upd l (acc ++ cs).length buf w) (acc ++ cs) := by
  intro cs
  induction cs with
  | nil =>
    intro l acc _ _ hf _ _
    have : (acc ++ []).length = l.cursor := by simp [hf.1]
    refine ⟨l.buffer, l.writes, ?_, ?_⟩
    · rw [this, upd_self]; rfl
    · rw [this, upd_self]; simpa using hf
  | cons c cs ih =>
    intro l acc hst hcr hf hlen hcs
    have hc := hcs c (by simp)
    have hlt : acc.length < 63 := by simp at hlen; omega
    have hstep := step_key_char E t l c hst hcr hc (by rw [hf.1]; exact hlt)
    have hf2 := store_next l acc c hf hlt
    obtain ⟨buf, w, h1, h2⟩ := ih (store l c) (acc ++ [c]) (by simpa [store] using hst)
      (by simpa [store] using hcr) hf2
      (by simp at hlen ⊢; omega) (fun x hx => hcs x (by simp [hx]))
    refine ⟨buf, w, ?_, ?_⟩
    · rw [parseLoop_cons, hstep, h1, store_eq_upd, upd_upd]; simp
    · rw [store_eq_upd, upd_upd] at h2; simpa using h2

/-- A header name followed by `: ` leaves the name in the scan buffer and the parser in
`VALUE` with the cursor at 0. -/
theorem key_name (E : Env) (t : Nat) (l : Loop) (k : Nat) (ks : List Nat)
    (hst : l.state = states.KEY) (hcur : l.cursor = 0) (hlen : l.buffer.length = 64)
    (hl : ks.length + 1 ≤ 63) (hks : ∀ x ∈ k :: ks, x ≠ 13 ∧ x ≠ 10 ∧ x ≠ 58 ∧ x ≠ 32) :
    ∃ buf w, parseLoop E t l (k :: ks ++ [58, 32]) =
        { l with state := states.VALUE, cr := 0, cursor := 0, buffer := buf, writes := w } ∧
      buf.length = 64 ∧ ∃ rest, buf = k :: ks ++ 0 :: rest := by
  have hk := hks k (by simp)
  have hstep : step E t l k = store { l with cr := 0 } k := by
    obtain ⟨self, method, state, header, cursor, cr, buffer, writes, draws⟩ := l
    simp only at hst hcur
    subst hst hcur
    simp [step, hk.1, hk.2.1, hk.2.2.1, hk.2.2.2, SSDP_BUFFER_SIZE]
  have hf : Filled (store { l with cr := 0 } k) [k] := store_first _ k hcur hlen
  obtain ⟨buf, w, h1, h2⟩ := key_run E t ks (store { l with cr := 0 } k) [k]
    (by simpa [store] using hst) (by simp [store]) hf (by simp; omega)
    (fun x hx => hks x (by simp [hx]))
  refine ⟨buf, w, ?_, ?_, ?_⟩
  · rw [List.cons_append, parseLoop_cons, hstep, parseLoop_append, h1, store_eq_upd, upd_upd]
    simp [parseLoop, step, upd, hst]
  · simpa [upd] using h2.2.1
  · obtain ⟨rest, hr⟩ := h2.2.2
    exact ⟨rest, by simpa [upd] using hr⟩

/-- The two line-terminator bytes that end a header value run the `switch (header)`. -/
theorem value_end (E : Env) (t : Nat) (l : Loop) (hst : l.state = states.VALUE)
    (hcr : l.cr = 0) :
    parseLoop E t l [13, 10] =
      if (valueDone E t { l with cr := 2 }).state ≠ states.ABORT then
        { valueDone E t { l with cr := 2 } with
          state := states.KEY, header := headers.START, cursor := 0 }
      else valueDone E t { l with cr := 2 } := by
  obtain ⟨self, method, state, header, cursor, cr, buffer, writes, draws⟩ := l
  simp only at hst hcr
  subst hst hcr
  simp [parseLoop, step]

theorem step_abort (E : Env) (t : Nat) (l : Loop) (c : Nat) (hst : l.state = states.ABORT) :
    (step E t l c).state = states.ABORT ∧
      (step E t l c).self = { l.self with _pending := false, _delay := 0 } := by
  obtain ⟨self, method, state, header, cursor, cr, buffer, writes, draws⟩ := l
  simp only at hst
  subst hst
  simp [step]

/-- `ABORT` is absorbing, and every byte read in it clears `_pending` and `_delay`. -/
theorem abort_run (E : Env) (t : Nat) : ∀ (cs : List Nat) (l : Loop), l.state = states.ABORT →
    (parseLoop E t l cs).state = states.ABORT ∧
      (parseLoop E t l cs).self =
        if cs = [] then l.self else { l.self with _pending := false, _delay := 0 } := by
  intro cs
  induction cs with
  | nil => intro l h; exact ⟨h, rfl⟩
  | cons c cs ih =>
    intro l h
    obtain ⟨h1, h2⟩ := step_abort E t l c h
    obtain ⟨h3, h4⟩ := ih (step E t l c) h1
    rw [parseLoop_cons]
    refine ⟨h3, ?_⟩
    rw [h4, h2]
    by_cases hcs : cs = [] <;> simp [hcs]

/-! ## The literals of the parser -/

theorem bytes_M_SEARCH : bytes "M-SEARCH" = [77, 45, 83, 69, 65, 82, 67, 72] := by decide
theorem bytes_star : bytes "*" = [42] := by decide
theorem bytes_MA : bytes "MA" = [77, 65] := by decide
theorem bytes_ST : bytes "ST" = [83, 84] := by decide
theorem bytes_MX : bytes "MX" = [77, 88] := by decide
theorem bytes_ssdp_all : bytes "ssdp:all" = [115, 115, 100, 112, 58, 97, 108, 108] := by decide

theorem recognise_ST (l : Loop) (rest : List Nat) (hh : l.header = headers.START)
    (hb : l.buffer = 83 :: 84 :: 0 :: rest) : (recognise l).header = headers.ST := by
  simp [recognise, hh, hb, strncmpEq, strcmpEq, cstr, bytes_MA, bytes_ST]

theorem recognise_MX (l : Loop) (rest : List Nat) (hh : l.header = headers.START)
    (hb : l.buffer = 77 :: 88 :: 0 :: rest) : (recognise l).header = headers.MX := by
  simp [recognise, hh, hb, strncmpEq, strcmpEq, cstr, bytes_MA, bytes_ST, bytes_MX]

/-- After `ST: ` and the text `v` of the value, the parser is in `VALUE` with the header
recognised as `ST` and `v` in the scan buffer. -/
theorem st_text (E : Env) (t : Nat) (l : Loop) (c : Nat) (cs : List Nat)
    (hst : l.state = states.KEY) (hcur : l.cursor = 0) (hh : l.header = headers.START)
    (hlen : l.buffer.length = 64) (hl : cs.length + 1 ≤ 63)
    (hcs : ∀ x ∈ c :: cs, x ≠ 13 ∧ x ≠ 10) :
    ∃ buf w, parseLoop E t l ([83, 84, 58, 32] ++ (c :: cs)) =
        { l with state := states.VALUE, header := headers.ST, cr := 0, cursor := cs.length + 1,
                 buffer := buf, writes := w } ∧
      buf.length = 64 ∧ ∃ rest, buf = c :: cs ++ 0 :: rest := by
  obtain ⟨b1, w1, h1, hb1, r1, hr1⟩ := key_name E t l 83 [84] hst hcur hlen (by simp)
    (by simp)
  have hrec : (recognise
      { l with state := states.VALUE, cr := 0, cursor := 0, buffer := b1, writes := w1 }).header =
      headers.ST := recognise_ST _ r1 hh (by simpa using hr1)
  obtain ⟨b2, w2, h2, hb2, r2, hr2⟩ := value_text E t
    { l with state := states.VALUE, cr := 0, cursor := 0, buffer := b1, writes := w1 } c cs
    rfl rfl rfl hb1 (by rw [hrec]; decide) hl hcs
  refine ⟨b2, w2, ?_, hb2, r2, hr2⟩
  have : [83, 84, 58, 32] ++ (c :: cs) = (83 :: [84] ++ [58, 32]) ++ (c :: cs) := rfl
  rw [this, parseLoop_append, h1, h2, hrec]

/-- After `MX: ` and the text `v` of the value, the parser is in `VALUE` with the header
recognised as `MX` and `v` in the scan buffer. -/
theorem mx_text (E : Env) (t : Nat) (l : Loop) (c : Nat) (cs : List Nat)
    (hst : l.state = states.KEY) (hcur : l.cursor = 0) (hh : l.header = headers.START)
    (hlen : l.buffer.length = 64) (hl : cs.length + 1 ≤ 63)
    (hcs : ∀ x ∈ c :: cs, x ≠ 13 ∧ x ≠ 10) :
    ∃ buf w, parseLoop E t l ([77, 88, 58, 32] ++ (c :: cs)) =
        { l with state := states.VALUE, header := headers.MX, cr := 0, cursor := cs.length + 1,
                 buffer := buf, writes := w } ∧
      buf.length = 64 ∧ ∃ rest, buf = c :: cs ++ 0 :: rest := by
  obtain ⟨b1, w1, h1, hb1, r1, hr1⟩ := key_name E t l 77 [88] hst hcur hlen (by simp)
    (by simp)
  have hrec : (recognise
      { l with state := states.VALUE, cr := 0, cursor := 0, buffer := b1, writes := w1 }).header =
      headers.MX := recognise_MX _ r1 hh (by simpa using hr1)
  obtain ⟨b2, w2, h2, hb2, r2, hr2⟩ := value_text E t
    { l with state := states.VALUE, cr := 0, cursor := 0, buffer := b1, writes := w1 } c cs
    rfl rfl rfl hb1 (by rw [hrec]; decide) hl hcs
  refine ⟨b2, w2, ?_, hb2, r2, hr2⟩
  have : [77, 88, 58, 32] ++ (c :: cs) = (77 :: [88] ++ [58, 32]) ++ (c :: cs) := rfl
  rw [this, parseLoop_append, h1, h2, hrec]

/-- The blank line after a header line: the fourth line-terminator byte in a row, read in
`KEY`, sets `_pending` and takes the time. -/
theorem key_blank (E : Env) (t : Nat) (l : Loop) (hst : l.state = states.KEY) (hcr : l.cr = 2) :
    parseLoop E t l [13, 10] =
      { l with cr := 4, self := { l.self with _pending := true, _process_time := millis t } } := by
  obtain ⟨self, method, state, header, cursor, cr, buffer, writes, draws⟩ := l
  simp only at hst hcr
  subst hst hcr
  simp [parseLoop, step]

theorem searchHead_eq : searchHead = [77, 45, 83, 69, 65, 82, 67, 72, 32, 42, 32, 72, 84, 84, 80,
    47, 49, 46, 49, 13, 10, 72, 79, 83, 84, 58, 32, 50, 51, 57, 46, 50, 53, 53, 46, 50, 53, 53,
    46, 50, 53, 48, 58, 49, 57, 48, 48, 13, 10, 77, 65, 78, 58, 32, 34, 115, 115, 100, 112, 58,
    100, 105, 115, 99, 111, 118, 101, 114, 34, 13, 10] := by decide

/-- After the request line `M-SEARCH * HTTP/1.1` and the `HOST` and `MAN` headers the parser
waits for the next header name, and the object is untouched. -/
theorem parse_searchHead (E : Env) (t : Nat) (s : Responder) :
    (parseLoop E t (initLoop s) searchHead).self = s ∧
    (parseLoop E t (initLoop s) searchHead).state = states.KEY ∧
    (parseLoop E t (initLoop s) searchHead).header = headers.START ∧
    (parseLoop E t (initLoop s) searchHead).cursor = 0 ∧
    (parseLoop E t (initLoop s) searchHead).cr = 2 ∧
    (parseLoop E t (initLoop s) searchHead).draws = 0 ∧
    (parseLoop E t (initLoop s) searchHead).buffer.length = 64 := by
  rw [searchHead_eq]
  simp [parseLoop, step, store, recognise, valueDone, initLoop, strcmpEq, strncmpEq, cstr,
    bytes_M_SEARCH, bytes_star, bytes_MA, bytes_ST, bytes_MX, SSDP_METHOD_SIZE, SSDP_URI_SIZE,
    SSDP_BUFFER_SIZE, List.replicate]

theorem searchAll_split (n : Nat) :
    searchAll n = searchHead ++ (([83, 84, 58, 32] ++ [115, 115, 100, 112, 58, 97, 108, 108]) ++
      ([13, 10] ++ (([77, 88, 58, 32] ++ fmtU n) ++ ([13, 10] ++ [13, 10])))) := by
  have h1 : bytes "M-SEARCH * HTTP/1.1\r\nHOST: 239.255.255.250:1900\r\nMAN: \"ssdp:discover\"\r\nST: ssdp:all\r\nMX: "
      = searchHead ++ [83, 84, 58, 32, 115, 115, 100, 112, 58, 97, 108, 108, 13, 10, 77, 88, 58, 32] := by
    decide
  have h2 : bytes "\r\n\r\n" = [13, 10, 13, 10] := by decide
  rw [searchAll, h1, h2]
  simp

theorem parsePhase_recv (E : Env) (t : Nat) (s : Responder) (cur : Option Datagram)
    (d : Datagram) (q : List Datagram) (hp : s._pending = false) :
    parsePhase E t s ⟨cur, d :: q⟩ =
      ((parseLoop E t (initLoop { s with _respondToAddr := d.remoteAddr
                                         _respondToPort := d.remotePort }) d.payload).self,
        ⟨some { d with payload := [] }, q⟩) := by
  simp [parsePhase, hp, UdpContext.next, readAll, UdpContext.getRemoteAddress,
    UdpContext.getRemotePort]

theorem value_end_app (E : Env) (t : Nat) (l : Loop) (rest : List Nat)
    (hst : l.state = states.VALUE) (hcr : l.cr = 0) :
    parseLoop E t l ([13, 10] ++ rest) =
      parseLoop E t (if (valueDone E t { l with cr := 2 }).state ≠ states.ABORT then
        { valueDone E t { l with cr := 2 } with
          state := states.KEY, header := headers.START, cursor := 0 }
      else valueDone E t { l with cr := 2 }) rest := by
  rw [parseLoop_append, value_end E t l hst hcr]

theorem parse_searchAll (E : Env) (t : Nat) (s : Responder) (n : Nat) (hint : n ≤ 2147483647) :
    (parseLoop E t (initLoop s) (searchAll n)).self =
      { s with _pending := true, _process_time := millis t
               _delay := ((E.random 0 0 n * 1000) % (2 : Int) ^ E.delayBits).toNat } := by
  obtain ⟨h0s, h0st, h0h, h0c, h0cr, h0d, h0len⟩ := parse_searchHead E t s
  rw [searchAll_split, parseLoop_append]
  generalize parseLoop E t (initLoop s) searchHead = l0 at h0s h0st h0h h0c h0cr h0d h0len
  obtain ⟨self, method, state, header, cursor, cr, buffer, writes, draws⟩ := l0
  simp only at h0s h0st h0h h0c h0cr h0d h0len
  subst h0s h0st h0h h0c h0cr h0d
  -- the `ST: ssdp:all` line
  obtain ⟨b2, w2, h2, hb2, r2, hr2⟩ := st_text E t
    ⟨self, method, states.KEY, headers.START, 0, 2, buffer, writes, 0⟩
    115 [115, 100, 112, 58, 97, 108, 108] rfl rfl rfl h0len (by simp) (by simp)
  rw [parseLoop_append, h2, value_end_app E t _ _ rfl rfl]
  have hall : strcmpEq b2 (bytes "ssdp:all") = true := by
    simp [strcmpEq, cstr, hr2, bytes_ssdp_all]
  obtain ⟨d, ds, hds⟩ : ∃ d ds, fmtU n = d :: ds := by
    cases h : fmtU n with
    | nil => exact absurd h (fmtU_ne_nil n)
    | cons d ds => exact ⟨d, ds, rfl⟩
  have hdig : ∀ x ∈ d :: ds, x ≠ 13 ∧ x ≠ 10 := by
    intro x hx
    have := fmtU_digits n x (by rw [hds]; exact hx)
    omega
  have hlen : ds.length + 1 ≤ 63 := by
    have := fmtU_length n hint
    rw [hds] at this
    simp at this
    omega
  have key : ∀ s2 : Responder,
      (parseLoop E t ⟨s2, method, states.KEY, headers.START, 0, 2, b2, w2, 0⟩
        (([77, 88, 58, 32] ++ fmtU n) ++ ([13, 10] ++ [13, 10]))).self =
      { s2 with _pending := true, _process_time := millis t
                _delay := ((E.random 0 0 n * 1000) % (2 : Int) ^ E.delayBits).toNat } := by
    intro s2
    obtain ⟨b4, w4, h4, hb4, r4, hr4⟩ := mx_text E t
      ⟨s2, method, states.KEY, headers.START, 0, 2, b2, w2, 0⟩ d ds rfl rfl rfl hb2 hlen hdig
    have hat : atoi b4 = (n : Int) := by
      rw [hr4, ← hds]
      exact atoi_fmtU n r4 hint
    rw [hds, parseLoop_append, h4, value_end_app E t _ _ rfl rfl]
    simp only [valueDone, hat]
    rw [if_pos (by simp), key_blank E t _ rfl rfl]
  by_cases hm : strcasecmpEq b2 self._deviceType = true
  · simp only [valueDone, hall, hm, if_true]
    rw [if_pos (by simp)]
    exact key _
  · simp only [valueDone, hall, hm, if_true, if_false]
    rw [if_pos (by simp)]
    exact key _

theorem sampleEnv_random : RandomInRange sampleEnv := by
  intro i hi h
  simp only [sampleEnv, h, if_true]
  omega

/-- C1: when no response is pending and the datagram selected by `_update` is the
specification's search request with `ST: ssdp:all` and `MX: n` (`n` positive, `n * 1000`
fitting the `_delay` member, itself no wider than a 32-bit `long`), the parse ends with
`_pending` set, the sender's address and port recorded, `_process_time` at the current
`millis()`, and `_delay = 1000 * k` for the `k` that `random(0, n)` returned, so
`_delay < n * 1000`; nothing else of the object changes. -/
theorem c1_search_all_schedules_response (E : Env) (t : Nat) (s : Responder)
    (cur : Option Datagram) (q : List Datagram) (addr port n : Nat)
    (hp : s._pending = false) (hn : 0 < n) (hfit : n * 1000 < 2 ^ E.delayBits)
    (hw : E.delayBits ≤ 32) (hr : RandomInRange E) :
    ∃ k : Nat, (k : Int) = E.random 0 0 n ∧ k < n ∧ 1000 * k < n * 1000 ∧
      (parsePhase E t s ⟨cur, ⟨addr, port, searchAll n⟩ :: q⟩).1 =
        { s with _pending := true, _respondToAddr := addr, _respondToPort := port
                 _process_time := millis t, _delay := 1000 * k } := by
  have h32 : 2 ^ E.delayBits ≤ 2 ^ 32 := Nat.pow_le_pow_right (by decide) hw
  have hint : n ≤ 2147483647 := by
    have : (2 : Nat) ^ 32 = 4294967296 := by norm_num
    omega
  obtain ⟨hk0, hk1⟩ := hr 0 (n : Int) (by exact_mod_cast hn)
  obtain ⟨k, hk⟩ := Int.eq_ofNat_of_zero_le hk0
  have hkn : k < n := by
    rw [hk] at hk1
    exact_mod_cast hk1
  refine ⟨k, hk.symm, hkn, by omega, ?_⟩
  rw [parsePhase_recv E t s cur _ q hp]
  simp only [parse_searchAll E t _ n hint, hk]
  have hmod : ((k : Int) * 1000) % (2 : Int) ^ E.delayBits = ((k * 1000 : Nat) : Int) := by
    have h1 : ((2 : Int) ^ E.delayBits) = (((2 : Nat) ^ E.delayBits : Nat) : Int) := by
      push_cast; rfl
    rw [h1]
    have h2 : ((k : Int) * 1000) = ((k * 1000 : Nat) : Int) := by push_cast; rfl
    rw [h2, ← Int.natCast_mod, Nat.mod_eq_of_lt (by omega)]
  rw [hmod, Int.toNat_natCast, Nat.mul_comm k 1000]

/-- C1 at the specification's witness `n = 3`, for a sender 192.168.1.77:50000. -/
theorem c1_search_all_schedules_response_witness :
    ∃ k : Nat, (k : Int) = sampleEnv.random 0 0 (3 : Nat) ∧ k < 3 ∧ 1000 * k < 3 * 1000 ∧
      (parsePhase sampleEnv 5000 sampleResponder
          ⟨none, [⟨192 + 256 * (168 + 256 * (1 + 256 * 77)), 50000, searchAll 3⟩]⟩).1 =
        { sampleResponder with
          _pending := true, _respondToAddr := 192 + 256 * (168 + 256 * (1 + 256 * 77))
          _respondToPort := 50000, _process_time := millis 5000, _delay := 1000 * k } :=
  c1_search_all_schedules_response sampleEnv 5000 sampleResponder none []
    (192 + 256 * (168 + 256 * (1 + 256 * 77))) 50000 3 rfl (by decide) (by decide) (by decide)
    sampleEnv_random

theorem searchFor_split (v : List Nat) :
    searchFor v = searchHead ++ (([83, 84, 58, 32] ++ v) ++
      ([13, 10] ++ [77, 88, 58, 32, 51, 13, 10, 13, 10])) := by
  have h1 : bytes "M-SEARCH * HTTP/1.1\r\nHOST: 239.255.255.250:1900\r\nMAN: \"ssdp:discover\"\r\nST: "
      = searchHead ++ [83, 84, 58, 32] := by
    decide
  have h2 : bytes "\r\nMX: 3\r\n\r\n" = [13, 10, 77, 88, 58, 32, 51, 13, 10, 13, 10] := by decide
  rw [searchFor, h1, h2]
  simp

theorem cstr_self (v : List Nat) (hz : ∀ c ∈ v, c ≠ 0) : cstr v = v :=
  takeWhile_all _ _ (fun c hc => by simpa using hz c hc)

theorem parse_searchFor_reject (E : Env) (t : Nat) (s : Responder) (v : List Nat)
    (hne : v ≠ []) (hlen : v.length ≤ 63) (hv : ∀ c ∈ v, c ≠ 13 ∧ c ≠ 10 ∧ c ≠ 0)
    (hall : v ≠ bytes "ssdp:all") (hdev : strcasecmpEq v s._deviceType = false) :
    (parseLoop E t (initLoop s) (searchFor v)).state = states.ABORT ∧
    (parseLoop E t (initLoop s) (searchFor v)).self = { s with _pending := false, _delay := 0 } := by
  obtain ⟨h0s, h0st, h0h, h0c, h0cr, h0d, h0len⟩ := parse_searchHead E t s
  rw [searchFor_split, parseLoop_append]
  generalize parseLoop E t (initLoop s) searchHead = l0 at h0s h0st h0h h0c h0cr h0d h0len
  obtain ⟨self, method, state, header, cursor, cr, buffer, writes, draws⟩ := l0
  simp only at h0s h0st h0h h0c h0cr h0d h0len
  subst h0s h0st h0h h0c h0cr h0d
  obtain ⟨c, cs, rfl⟩ : ∃ c cs, v = c :: cs := by
    cases v with
    | nil => exact absurd rfl hne
    | cons c cs => exact ⟨c, cs, rfl⟩
  have hz : ∀ x ∈ c :: cs, x ≠ 0 := fun x hx => (hv x hx).2.2
  obtain ⟨b2, w2, h2, hb2, r2, hr2⟩ := st_text E t
    ⟨self, method, states.KEY, headers.START, 0, 2, buffer, writes, 0⟩
    c cs rfl rfl rfl h0len (by simpa using hlen) (fun x hx => ⟨(hv x hx).1, (hv x hx).2.1⟩)
  have hc2 : cstr b2 = c :: cs := by
    rw [hr2]; exact cstr_append_zero _ _ hz
  have hnall : strcmpEq b2 (bytes "ssdp:all") = false := by
    have : cstr (bytes "ssdp:all") = bytes "ssdp:all" := by
      rw [bytes_ssdp_all]; decide
    simp only [strcmpEq, hc2, this]
    simpa using hall
  have hnd : strcasecmpEq b2 self._deviceType = false := by
    simp only [strcasecmpEq, hc2]
    simpa only [strcasecmpEq, cstr_self _ hz] using hdev
  rw [parseLoop_append, h2, value_end_app E t _ _ rfl rfl]
  simp only [valueDone, hnall, hnd, if_false, Bool.false_eq_true]
  rw [if_neg (by simp)]
  obtain ⟨a1, a2⟩ := abort_run E t [77, 88, 58, 32, 51, 13, 10, 13, 10]
    ⟨self, method, states.ABORT, headers.ST, cs.length + 1, 2, b2, w2, 0⟩ rfl
  exact ⟨a1, by rw [a2]; simp⟩

/-- C2: when no response is pending and the datagram selected by `_update` is the
specification's search request with a search target `v` (non-empty, at most 63 bytes, none
of them CR, LF or NUL) that is neither `ssdp:all` nor equal to `_deviceType` up to case,
the parser ends in `ABORT` and, after the datagram is consumed, `_pending` is false and
`_delay` is 0; only the sender's address and port are recorded. -/
theorem c2_other_search_target_aborts (E : Env) (t : Nat) (s : Responder)
    (cur : Option Datagram) (q : List Datagram) (addr port : Nat) (v : List Nat)
    (hp : s._pending = false) (hne : v ≠ []) (hlen : v.length ≤ 63)
    (hv : ∀ c ∈ v, c ≠ 13 ∧ c ≠ 10 ∧ c ≠ 0)
    (hall : v ≠ bytes "ssdp:all") (hdev : strcasecmpEq v s._deviceType = false) :
    (parseLoop E t (initLoop { s with _respondToAddr := addr, _respondToPort := port })
        (searchFor v)).state = states.ABORT ∧
    (parsePhase E t s ⟨cur, ⟨addr, port, searchFor v⟩ :: q⟩).1 =
      { s with _pending := false, _delay := 0, _respondToAddr := addr, _respondToPort := port } := by
  obtain ⟨h1, h2⟩ := parse_searchFor_reject E t
    { s with _respondToAddr := addr, _respondToPort := port } v hne hlen hv hall hdev
  refine ⟨h1, ?_⟩
  rw [parsePhase_recv E t s cur _ q hp]
  exact h2

/-- C2 at the specification's witness `ST: urn:some-other-type`. -/
theorem c2_other_search_target_aborts_witness :
    (parseLoop sampleEnv 5000
        (initLoop { sampleResponder with _respondToAddr := 7, _respondToPort := 50000 })
        (searchFor (bytes "urn:some-other-type"))).state = states.ABORT ∧
    (parsePhase sampleEnv 5000 sampleResponder
        ⟨none, [⟨7, 50000, searchFor (bytes "urn:some-other-type")⟩]⟩).1 =
      { sampleResponder with
        _pending := false, _delay := 0, _respondToAddr := 7, _respondToPort := 50000 } :=
  c2_other_search_target_aborts sampleEnv 5000 sampleResponder none [] 7 50000
    (bytes "urn:some-other-type") rfl (by decide) (by decide) (by decide) (by decide)
    (by decide)

theorem methodToken_split : ∀ d : List Nat,
    (∀ c ∈ methodToken d, c ≠ 32) ∧
      (d = methodToken d ∨ ∃ rest, d = methodToken d ++ 32 :: rest) := by
  intro d
  induction d with
  | nil => simp [methodToken]
  | cons x xs ih =>
    by_cases hx : x = 32
    · subst hx
      simp [methodToken]
    · have hm : methodToken (x :: xs) = x :: methodToken xs := by
        simp [methodToken, List.takeWhile_cons, hx]
      rw [hm]
      refine ⟨?_, ?_⟩
      · intro c hc
        rcases List.mem_cons.mp hc with h | h
        · rw [h]; exact hx
        · exact ih.1 c h
      · rcases ih.2 with h | ⟨rest, h⟩
        · left; rw [← h]
        · right; exact ⟨rest, by rw [List.cons_append, ← h]⟩

theorem step_method_char (E : Env) (t : Nat) (l : Loop) (c : Nat)
    (hst : l.state = states.METHOD) (hc : c ≠ 32) :
    step E t l c =
      if l.cursor < 9 then store { l with cr := if c = 13 ∨ c = 10 then (l.cr + 1) % 256 else 0 } c
      else { l with cr := if c = 13 ∨ c = 10 then (l.cr + 1) % 256 else 0 } := by
  obtain ⟨self, method, state, header, cursor, cr, buffer, writes, draws⟩ := l
  simp only at hst
  subst hst
  simp [step, hc, SSDP_METHOD_SIZE]

/-- While the method token is read, its first nine bytes go to the scan buffer and nothing
else happens. -/
theorem method_run (E : Env) (t : Nat) : ∀ (cs : List Nat) (l : Loop) (acc : List Nat),
    l.state = states.METHOD → Filled l acc → acc.length ≤ 9 → (∀ c ∈ cs, c ≠ 32) →
    (parseLoop E t l cs).state = states.METHOD ∧ (parseLoop E t l cs).method = l.method ∧
      (parseLoop E t l cs).self = l.self ∧ Filled (parseLoop E t l cs) ((acc ++ cs).take 9) := by
  intro cs
  induction cs with
  | nil =>
    intro l acc hst hf hacc _
    refine ⟨hst, rfl, rfl, ?_⟩
    rw [List.append_nil, List.take_of_length_le hacc]
    exact hf
  | cons c cs ih =>
    intro l acc hst hf hacc hcs
    have hc := hcs c (by simp)
    have hstep := step_method_char E t l c hst hc
    rw [parseLoop_cons]
    by_cases hlt : l.cursor < 9
    · rw [if_pos hlt] at hstep
      have hf1 : Filled { l with cr := if c = 13 ∨ c = 10 then (l.cr + 1) % 256 else 0 } acc := hf
      have hf2 := store_next _ acc c hf1 (by rw [← hf.1]; omega)
      obtain ⟨a1, a2, a3, a4⟩ := ih (step E t l c) (acc ++ [c])
        (by rw [hstep]; simpa [store] using hst) (by rw [hstep]; exact hf2)
        (by rw [hf.1] at hlt; simp; omega) (fun x hx => hcs x (by simp [hx]))
      refine ⟨a1, ?_, ?_, ?_⟩
      · rw [a2, hstep]; simp [store]
      · rw [a3, hstep]; simp [store]
      · simpa using a4
    · rw [if_neg hlt] at hstep
      have h9 : acc.length = 9 := by rw [hf.1] at hlt; omega
      have hf1 : Filled { l with cr := if c = 13 ∨ c = 10 then (l.cr + 1) % 256 else 0 } acc := hf
      obtain ⟨a1, a2, a3, a4⟩ := ih (step E t l c) acc
        (by rw [hstep]; exact hst) (by rw [hstep]; exact hf1) hacc
        (fun x hx => hcs x (by simp [hx]))
      refine ⟨a1, ?_, ?_, ?_⟩
      · rw [a2, hstep]
      · rw [a3, hstep]
      · have e1 : (acc ++ cs).take 9 = acc := by
          rw [← h9]; exact List.take_left' rfl
        have e2 : (acc ++ c :: cs).take 9 = acc := by
          rw [← h9]; exact List.take_left' rfl
        rw [e2]; rw [e1] at a4; exact a4

theorem initLoop_filled (s : Responder) : Filled (initLoop s) [] :=
  ⟨rfl, by simp [initLoop, SSDP_BUFFER_SIZE], List.replicate 63 0, by
    simp [initLoop, SSDP_BUFFER_SIZE, List.replicate]⟩

theorem take9_eq_M_SEARCH (tok : List Nat) (h : tok.take 9 = bytes "M-SEARCH") :
    tok = bytes "M-SEARCH" := by
  have hl : (tok.take 9).length = 8 := by rw [h, bytes_M_SEARCH]; rfl
  have : tok.length ≤ 9 := by
    rw [List.length_take] at hl
    omega
  rw [← h, List.take_of_length_le this]

/-- A datagram whose method token is NUL-free and is not `M-SEARCH` leaves the object as it
found it, apart from clearing `_pending` and `_delay` if bytes follow the token. -/
theorem parse_other_method (E : Env) (t : Nat) (s : Responder) (d : List Nat)
    (hz : ∀ c ∈ methodToken d, c ≠ 0) (hm : methodToken d ≠ bytes "M-SEARCH") :
    (parseLoop E t (initLoop s) d).self = s ∨
      (parseLoop E t (initLoop s) d).self = { s with _pending := false, _delay := 0 } := by
  obtain ⟨hno, hsplit⟩ := methodToken_split d
  generalize methodToken d = tok at hz hm hno hsplit
  obtain ⟨m1, m2, m3, m4⟩ := method_run E t tok (initLoop s) [] rfl (initLoop_filled s)
    (by simp) hno
  rcases hsplit with h | ⟨rest, h⟩
  · left
    rw [h]; exact m3
  · rw [h, parseLoop_append, parseLoop_cons]
    have hcs : cstr (parseLoop E t (initLoop s) tok).buffer = tok.take 9 := by
      have := m4.cstr_eq (fun c hc => hz c (List.mem_of_mem_take (by simpa using hc)))
      simpa using this
    have hne : strcmpEq (parseLoop E t (initLoop s) tok).buffer (bytes "M-SEARCH") = false := by
      have hc2 : cstr (bytes "M-SEARCH") = bytes "M-SEARCH" := by
        rw [bytes_M_SEARCH]; decide
      simp only [strcmpEq, hcs, hc2]
      have : tok.take 9 ≠ bytes "M-SEARCH" := fun h9 => hm (take9_eq_M_SEARCH tok h9)
      simpa using this
    generalize parseLoop E t (initLoop s) tok = l1 at m1 m2 m3 hne
    obtain ⟨self, method, state, header, cursor, cr, buffer, writes, draws⟩ := l1
    simp only [initLoop] at m1 m2 m3 hne
    subst m1 m2 m3
    have hstep : (step E t ⟨self, ssdp_method_t.NONE, states.METHOD, header, cursor, cr, buffer,
        writes, draws⟩ 32).state = states.ABORT ∧
        (step E t ⟨self, ssdp_method_t.NONE, states.METHOD, header, cursor, cr, buffer,
        writes, draws⟩ 32).self = self := by
      simp [step, hne]
    obtain ⟨a1, a2⟩ := abort_run E t rest _ hstep.1
    rw [a2, hstep.2]
    by_cases hr : rest = []
    · left; simp [hr]
    · right; simp [hr]

theorem schedulePhase_not_pending (t : Nat) (s : Responder) (hp : s._pending = false) :
    (schedulePhase t s).1._pending = false := by
  unfold schedulePhase
  rw [if_neg (by simp [hp])]
  split
  · exact hp
  · exact hp

/-- C3: a datagram made of visible characters, spaces, CR and LF whose method token is
not `M-SEARCH` never schedules a response: when no response is pending, `_pending` is
false after the parse, and still false when `_update` returns. -/
theorem c3_other_method_never_pending (E : Env) (t : Nat) (s : Responder)
    (cur : Option Datagram) (q : List Datagram) (addr port : Nat) (d : List Nat)
    (hp : s._pending = false) (htext : ∀ c ∈ d, isTextByte c = true)
    (hm : methodToken d ≠ bytes "M-SEARCH") :
    (parsePhase E t s ⟨cur, ⟨addr, port, d⟩ :: q⟩).1._pending = false ∧
      (_update E t s ⟨cur, ⟨addr, port, d⟩ :: q⟩).1._pending = false := by
  have hz : ∀ c ∈ methodToken d, c ≠ 0 := by
    intro c hc h0
    have := htext c (List.takeWhile_subset _ hc)
    rw [h0] at this
    simp [isTextByte] at this
  have h1 : (parsePhase E t s ⟨cur, ⟨addr, port, d⟩ :: q⟩).1._pending = false := by
    rw [parsePhase_recv E t s cur _ q hp]
    rcases parse_other_method E t
      { s with _respondToAddr := addr, _respondToPort := port } d hz hm with h | h
    · rw [h]; exact hp
    · rw [h]
  exact ⟨h1, schedulePhase_not_pending t _ h1⟩

/-- C3 for a `NOTIFY` announcement received as a datagram. -/
theorem c3_other_method_never_pending_witness :
    (parsePhase sampleEnv 5000 sampleResponder
        ⟨none, [⟨7, 1900, _ssdp_notify_template ++ bytes "\r\n"⟩]⟩).1._pending = false ∧
      (_update sampleEnv 5000 sampleResponder
        ⟨none, [⟨7, 1900, _ssdp_notify_template ++ bytes "\r\n"⟩]⟩).1._pending = false :=
  c3_other_method_never_pending sampleEnv 5000 sampleResponder none [] 7 1900
    (_ssdp_notify_template ++ bytes "\r\n") rfl (by decide) (by decide)

theorem valueDone_frame (E : Env) (t : Nat) (l : Loop) :
    (valueDone E t l).cursor = l.cursor ∧ (valueDone E t l).buffer = l.buffer ∧
    (valueDone E t l).writes = l.writes ∧
    ((valueDone E t l).state = l.state ∨ (valueDone E t l).state = states.ABORT ∨
      (valueDone E t l).state = states.KEY) := by
  unfold valueDone
  split
  · simp
  · simp
  · dsimp only
    split <;> split <;> simp
  · simp

theorem recognise_fields (l : Loop) :
    (recognise l).cursor = l.cursor ∧ (recognise l).buffer = l.buffer ∧
    (recognise l).writes = l.writes ∧ (recognise l).state = l.state := by
  rw [recognise_frame]
  simp

theorem store_inBounds (l : Loop) (c lim : Nat) (h : InBounds l) (hlt : l.cursor < lim)
    (hlim : lim ≤ 63) (hm : l.state = states.METHOD → lim ≤ 9)
    (hu : l.state = states.URI → lim ≤ 1) : InBounds (store l c) := by
  obtain ⟨h1, h2, h3, h4, h5⟩ := h
  simp only [SSDP_BUFFER_SIZE, SSDP_METHOD_SIZE, SSDP_URI_SIZE] at h1 h2 h3 h4 h5
  refine ⟨?_, ?_, ?_, ?_, ?_⟩
  · intro i hi
    simp only [store, List.mem_append, List.mem_cons, List.mem_singleton] at hi
    simp only [SSDP_BUFFER_SIZE]
    rcases hi with hi | hi | hi | hi
    · exact h1 i hi
    · omega
    · omega
    · simp at hi
  · simp [store, h2, SSDP_BUFFER_SIZE]
  · intro hs
    have := hm (by simpa [store] using hs)
    simp only [store, SSDP_METHOD_SIZE]; omega
  · intro hs
    have := hu (by simpa [store] using hs)
    simp only [store, SSDP_URI_SIZE]; omega
  · simp only [store, SSDP_BUFFER_SIZE]; omega

theorem inBounds_same (l k : Loop) (h : InBounds l) (hw : k.writes = l.writes)
    (hb : k.buffer = l.buffer)
    (hc : k.cursor = 0 ∨ (k.cursor = l.cursor ∧
      (k.state = l.state ∨ (k.state ≠ states.METHOD ∧ k.state ≠ states.URI)))) :
    InBounds k := by
  obtain ⟨h1, h2, h3, h4, h5⟩ := h
  refine ⟨by rw [hw]; exact h1, by rw [hb]; exact h2, ?_, ?_, ?_⟩
  · intro hs
    rcases hc with hc | ⟨hc, hs2 | hs2⟩
    · rw [hc]; exact Nat.zero_le _
    · rw [hc]; exact h3 (by rw [← hs2]; exact hs)
    · exact absurd hs hs2.1
  · intro hs
    rcases hc with hc | ⟨hc, hs2 | hs2⟩
    · rw [hc]; exact Nat.zero_le _
    · rw [hc]; exact h4 (by rw [← hs2]; exact hs)
    · exact absurd hs hs2.2
  · rcases hc with hc | ⟨hc, _⟩
    · rw [hc]; exact Nat.zero_le _
    · rw [hc]; exact h5

theorem step_inBounds (E : Env) (t : Nat) (l : Loop) (c : Nat) (h : InBounds l) :
    InBounds (step E t l c) := by
  obtain ⟨self, method, state, header, cursor, cr, buffer, writes, draws⟩ := l
  cases state
  · -- METHOD
    simp only [step]
    generalize (if c = 13 ∨ c = 10 then (cr + 1) % 256 else 0) = cr2
    split
    · exact inBounds_same _ _ h rfl rfl (Or.inl rfl)
    · split
      · rename_i hlt
        exact store_inBounds _ c 9 (inBounds_same _ _ h rfl rfl (Or.inr ⟨rfl, Or.inl rfl⟩))
          (by simpa [SSDP_METHOD_SIZE] using hlt) (by decide) (fun _ => le_refl _)
          (fun hs => by simp at hs)
      · exact inBounds_same _ _ h rfl rfl (Or.inr ⟨rfl, Or.inl rfl⟩)
  · -- URI
    simp only [step]
    generalize (if c = 13 ∨ c = 10 then (cr + 1) % 256 else 0) = cr2
    split
    · exact inBounds_same _ _ h rfl rfl (Or.inl rfl)
    · split
      · rename_i hlt
        exact store_inBounds _ c 1 (inBounds_same _ _ h rfl rfl (Or.inr ⟨rfl, Or.inl rfl⟩))
          (by simpa [SSDP_URI_SIZE] using hlt) (by decide) (fun _ => by decide)
          (fun _ => le_refl _)
      · exact inBounds_same _ _ h rfl rfl (Or.inr ⟨rfl, Or.inl rfl⟩)
  · -- PROTO
    simp only [step]
    generalize (if c = 13 ∨ c = 10 then (cr + 1) % 256 else 0) = cr2
    split
    · exact inBounds_same _ _ h rfl rfl (Or.inl rfl)
    · exact inBounds_same _ _ h rfl rfl (Or.inr ⟨rfl, Or.inl rfl⟩)
  · -- KEY
    simp only [step]
    generalize (if c = 13 ∨ c = 10 then (cr + 1) % 256 else 0) = cr2
    split
    · exact inBounds_same _ _ h rfl rfl (Or.inr ⟨rfl, Or.inl rfl⟩)
    · split
      · exact inBounds_same _ _ h rfl rfl (Or.inl rfl)
      · split
        · rename_i hlt
          exact store_inBounds _ c 63 (inBounds_same _ _ h rfl rfl (Or.inr ⟨rfl, Or.inl rfl⟩))
            (by simpa [SSDP_BUFFER_SIZE] using hlt.2.2.2) (le_refl _)
            (fun hs => by simp at hs) (fun hs => by simp at hs)
        · exact inBounds_same _ _ h rfl rfl (Or.inr ⟨rfl, Or.inl rfl⟩)
  · -- VALUE
    simp only [step]
    generalize (if c = 13 ∨ c = 10 then (cr + 1) % 256 else 0) = cr2
    split
    · obtain ⟨f1, f2, f3, f4⟩ := valueDone_frame E t
        ⟨self, method, states.VALUE, header, cursor, cr2, buffer, writes, draws⟩
      split
      · exact inBounds_same _ _ h f3 f2 (Or.inl rfl)
      · rename_i hab
        refine inBounds_same _ _ h f3 f2 (Or.inr ⟨f1, Or.inr ?_⟩)
        have : (valueDone E t
            ⟨self, method, states.VALUE, header, cursor, cr2, buffer, writes, draws⟩).state =
            states.ABORT := by simpa using hab
        rw [this]; simp
    · split
      · obtain ⟨g1, g2, g3, g4⟩ := recognise_fields
          ⟨self, method, states.VALUE, header, cursor, cr2, buffer, writes, draws⟩
        split
        · rename_i hlt
          exact store_inBounds _ c 63
            (inBounds_same _ _ h g3 g2 (Or.inr ⟨g1, Or.inl g4⟩))
            (by simpa [SSDP_BUFFER_SIZE] using hlt) (le_refl _)
            (fun hs => by rw [g4] at hs; simp at hs) (fun hs => by rw [g4] at hs; simp at hs)
        · exact inBounds_same _ _ h g3 g2 (Or.inr ⟨g1, Or.inl g4⟩)
      · exact inBounds_same _ _ h rfl rfl (Or.inr ⟨rfl, Or.inl rfl⟩)
  · -- ABORT
    simp only [step]
    generalize (if c = 13 ∨ c = 10 then (cr + 1) % 256 else 0) = cr2
    exact inBounds_same _ _ h rfl rfl (Or.inr ⟨rfl, Or.inl rfl⟩)

theorem initLoop_inBounds (s : Responder) : InBounds (initLoop s) := by
  simp [InBounds, initLoop, SSDP_BUFFER_SIZE]

theorem parseLoop_inBounds (E : Env) (t : Nat) : ∀ (d : List Nat) (l : Loop), InBounds l →
    InBounds (parseLoop E t l d) := by
  intro d
  induction d with
  | nil => intro l h; exact h
  | cons c cs ih => intro l h; exact ih _ (step_inBounds E t l c h)

/-- At the capacity of a field the cursor and the buffer stay as they are, whatever byte
comes: the byte is dropped from the field. -/
theorem step_full (E : Env) (t : Nat) (l : Loop) (c : Nat)
    (hfull : (l.state = states.METHOD ∧ l.cursor = 9) ∨ (l.state = states.URI ∧ l.cursor = 1) ∨
      ((l.state = states.KEY ∨ l.state = states.VALUE) ∧ l.cursor = 63)) :
    (step E t l c).buffer = l.buffer ∧ (step E t l c).writes = l.writes := by
  obtain ⟨self, method, state, header, cursor, cr, buffer, writes, draws⟩ := l
  rcases hfull with ⟨hs, hc⟩ | ⟨hs, hc⟩ | ⟨hs | hs, hc⟩ <;> simp only at hs hc <;> subst hs hc
  · simp only [step]
    generalize (if c = 13 ∨ c = 10 then (cr + 1) % 256 else 0) = cr2
    split
    · exact ⟨rfl, rfl⟩
    · rw [if_neg (by decide)]; exact ⟨rfl, rfl⟩
  · simp only [step]
    generalize (if c = 13 ∨ c = 10 then (cr + 1) % 256 else 0) = cr2
    split
    · exact ⟨rfl, rfl⟩
    · rw [if_neg (by decide)]; exact ⟨rfl, rfl⟩
  · simp only [step]
    generalize (if c = 13 ∨ c = 10 then (cr + 1) % 256 else 0) = cr2
    split
    · exact ⟨rfl, rfl⟩
    · split
      · exact ⟨rfl, rfl⟩
      · rw [if_neg (by simp [SSDP_BUFFER_SIZE])]; exact ⟨rfl, rfl⟩
  · simp only [step]
    generalize (if c = 13 ∨ c = 10 then (cr + 1) % 256 else 0) = cr2
    split
    · obtain ⟨f1, f2, f3, f4⟩ := valueDone_frame E t
        ⟨self, method, states.VALUE, header, 63, cr2, buffer, writes, draws⟩
      split
      · exact ⟨f2, f3⟩
      · exact ⟨f2, f3⟩
    · split
      · obtain ⟨g1, g2, g3, g4⟩ := recognise_fields
          ⟨self, method, states.VALUE, header, 63, cr2, buffer, writes, draws⟩
        rw [if_neg (by rw [g1]; simp [SSDP_BUFFER_SIZE])]
        exact ⟨g2, g3⟩
      · exact ⟨rfl, rfl⟩

/-- C4: whatever bytes the parser loop of `_update` is fed, every store into the scan
buffer has an index below 64 and the buffer keeps its 64 bytes; the cursor is at most 9 in
`METHOD`, at most 1 in `URI` and at most 63 in `KEY` and `VALUE`; and at those capacities a
further byte is dropped (no store happens) while the loop goes on to the end of the input. -/
theorem c4_scan_buffer_writes_in_bounds (E : Env) (t : Nat) (s : Responder) (d : List Nat) :
    (∀ i ∈ (parseLoop E t (initLoop s) d).writes, i < 64) ∧
    (parseLoop E t (initLoop s) d).buffer.length = 64 ∧
    ((parseLoop E t (initLoop s) d).state = states.METHOD →
      (parseLoop E t (initLoop s) d).cursor ≤ 9) ∧
    ((parseLoop E t (initLoop s) d).state = states.URI →
      (parseLoop E t (initLoop s) d).cursor ≤ 1) ∧
    (((parseLoop E t (initLoop s) d).state = states.KEY ∨
        (parseLoop E t (initLoop s) d).state = states.VALUE) →
      (parseLoop E t (initLoop s) d).cursor ≤ 63) ∧
    (∀ c : Nat,
      (((parseLoop E t (initLoop s) d).state = states.METHOD ∧
          (parseLoop E t (initLoop s) d).cursor = 9) ∨
        ((parseLoop E t (initLoop s) d).state = states.URI ∧
          (parseLoop E t (initLoop s) d).cursor = 1) ∨
        (((parseLoop E t (initLoop s) d).state = states.KEY ∨
          (parseLoop E t (initLoop s) d).state = states.VALUE) ∧
          (parseLoop E t (initLoop s) d).cursor = 63)) →
      (parseLoop E t (initLoop s) (d ++ [c])).buffer = (parseLoop E t (initLoop s) d).buffer ∧
      (parseLoop E t (initLoop s) (d ++ [c])).writes = (parseLoop E t (initLoop s) d).writes) := by
  obtain ⟨h1, h2, h3, h4, h5⟩ := parseLoop_inBounds E t d (initLoop s) (initLoop_inBounds s)
  refine ⟨h1, h2, h3, h4, fun _ => h5, ?_⟩
  intro c hfull
  rw [parseLoop_append]
  exact step_full E t _ c hfull

theorem subU32_millis (t t2 : Nat) (h : t ≤ t2) (hd : t2 - t < 4294967296) :
    subU32 (millis t2) (millis t) = t2 - t := by
  unfold subU32 millis
  omega

theorem drainLoop_empties : ∀ (q : List Datagram) (cur : Option Datagram) (fuel : Nat),
    q.length < fuel → drainLoop fuel ⟨cur, q⟩ = ⟨none, []⟩ := by
  intro q
  induction q with
  | nil =>
    intro cur fuel h
    obtain ⟨f, rfl⟩ : ∃ f, fuel = f + 1 := ⟨fuel - 1, by simp at h; omega⟩
    simp [drainLoop, UdpContext.next]
  | cons d q ih =>
    intro cur fuel h
    obtain ⟨f, rfl⟩ : ∃ f, fuel = f + 1 := ⟨fuel - 1, by simp at h; omega⟩
    simp only [drainLoop, UdpContext.next, UdpContext.flush]
    exact ih _ f (by simpa using h)

theorem drain_empties (u : UdpContext) : drain u = ⟨none, []⟩ := by
  obtain ⟨cur, q⟩ := u
  exact drainLoop_empties q cur _ (Nat.lt_succ_self _)

theorem parsePhase_pending (E : Env) (t : Nat) (s : Responder) (u : UdpContext)
    (hp : s._pending = true) : parsePhase E t s u = (s, u) := by
  simp [parsePhase, hp]

theorem parsePhase_idle (E : Env) (t : Nat) (s : Responder) (cur : Option Datagram)
    (hp : s._pending = false) : parsePhase E t s ⟨cur, []⟩ = (s, ⟨none, []⟩) := by
  simp [parsePhase, hp, UdpContext.next]

theorem interval_ms : SSDP_INTERVAL * 1000 = 1200000 := by decide

/-- C5 as stated fails: with a response pending and not yet due (500 ms of 1000) and
`_notify_time = 0`, the call of `_update` sends a `NOTIFY`. -/
theorem c5_counterexample :
    samplePending._pending = true ∧
    subU32 (millis 500) samplePending._process_time < samplePending._delay ∧
    (_update sampleEnv 500 samplePending ⟨none, []⟩).2.2 =
      [_send { samplePending with _notify_time := 500 } ssdp_method_t.NOTIFY] := by
  refine ⟨rfl, by decide, ?_⟩
  rw [_update, parsePhase_pending _ _ _ _ rfl]
  rfl

/-- C5 (as amended): while a response is pending and `now - _process_time < _delay`, one
call of `_update` sends no search response and keeps the response pending; it sends one
`NOTIFY` to the multicast group exactly when `_notify_time` is 0 or more than
`SSDP_INTERVAL` seconds old, and nothing otherwise. -/
theorem c5_pending_not_due_sends_no_response (E : Env) (t : Nat) (s : Responder)
    (u : UdpContext) (hp : s._pending = true)
    (hnd : subU32 (millis t) s._process_time < s._delay) :
    (_update E t s u).1._pending = true ∧
    (_update E t s u).1._delay = s._delay ∧
    (_update E t s u).2.2 =
      if s._notify_time = 0 ∨ subU32 (millis t) s._notify_time > 1200000 then
        [_send { s with _notify_time := millis t } ssdp_method_t.NOTIFY]
      else [] := by
  rw [_update, parsePhase_pending E t s u hp]
  simp only [schedulePhase, interval_ms]
  rw [if_neg (by omega)]
  split <;> exact ⟨hp, rfl, rfl⟩

/-- C5 (as amended) for the sample pending response at 500 ms, a second search queued. -/
theorem c5_pending_not_due_sends_no_response_witness :
    (_update sampleEnv 500 samplePendingAnnounced ⟨none, [secondSearch]⟩).1._pending = true ∧
    (_update sampleEnv 500 samplePendingAnnounced ⟨none, [secondSearch]⟩).1._delay =
      samplePendingAnnounced._delay ∧
    (_update sampleEnv 500 samplePendingAnnounced ⟨none, [secondSearch]⟩).2.2 =
      if samplePendingAnnounced._notify_time = 0 ∨
          subU32 (millis 500) samplePendingAnnounced._notify_time > 1200000 then
        [_send { samplePendingAnnounced with _notify_time := millis 500 } ssdp_method_t.NOTIFY]
      else [] :=
  c5_pending_not_due_sends_no_response sampleEnv 500 samplePendingAnnounced
    ⟨none, [secondSearch]⟩ rfl (by decide)

/-- C6 as stated fails at the instant of equality: for the sample pending response (announced
at `millis() = 1`) the call of `_update` at `now - _process_time = _delay = 1000` sends no
search response, in fact nothing, and the response stays pending. -/
theorem c6_counterexample :
    samplePendingAnnounced._pending = true ∧
    subU32 (millis 1000) samplePendingAnnounced._process_time ≥ samplePendingAnnounced._delay ∧
    (_update sampleEnv 1000 samplePendingAnnounced ⟨none, []⟩).2.2 = [] ∧
    (_update sampleEnv 1000 samplePendingAnnounced ⟨none, []⟩).1._pending = true := by
  refine ⟨rfl, by decide, ?_, ?_⟩
  · rw [_update, parsePhase_pending _ _ _ _ rfl]
    rfl
  · rw [_update, parsePhase_pending _ _ _ _ rfl]
    rfl

/-- C6 (as amended): when a response is pending and `now - _process_time > _delay`, one
call of `_update` clears it (`_pending = false`, `_delay = 0`), leaves the datagram queue
alone and performs exactly one send: the search response, which starts with the
`HTTP/1.1 200 OK` framing and goes to the recorded remote address and port. -/
theorem c6_due_response_is_sent_once (E : Env) (t : Nat) (s : Responder) (u : UdpContext)
    (hp : s._pending = true) (hdue : subU32 (millis t) s._process_time > s._delay) :
    (_update E t s u).1 = { s with _pending := false, _delay := 0 } ∧
    (_update E t s u).2.1 = u ∧
    ∃ p : Packet, (_update E t s u).2.2 = [p] ∧
      p = _send { s with _pending := false, _delay := 0 } ssdp_method_t.NONE ∧
      p.addr = s._respondToAddr ∧ p.port = s._respondToPort ∧
      ∃ rest, p.payload = bytes "HTTP/1.1 200 OK\r\nEXT:\r\n" ++ rest := by
  rw [_update, parsePhase_pending E t s u hp]
  simp only [schedulePhase]
  rw [if_pos ⟨hp, hdue⟩]
  refine ⟨rfl, by simp [drainPhase], _, rfl, rfl, rfl, rfl, ?_⟩
  simp only [_send, if_true, packetText, _ssdp_response_template, List.append_assoc]
  exact ⟨_, rfl⟩

/-- C6 (as amended) for the sample pending response at 1001 ms. -/
theorem c6_due_response_is_sent_once_witness :
    (_update sampleEnv 1001 samplePending ⟨none, [secondSearch]⟩).1 =
      { samplePending with _pending := false, _delay := 0 } ∧
    (_update sampleEnv 1001 samplePending ⟨none, [secondSearch]⟩).2.1 = ⟨none, [secondSearch]⟩ ∧
    ∃ p : Packet, (_update sampleEnv 1001 samplePending ⟨none, [secondSearch]⟩).2.2 = [p] ∧
      p = _send { samplePending with _pending := false, _delay := 0 } ssdp_method_t.NONE ∧
      p.addr = samplePending._respondToAddr ∧ p.port = samplePending._respondToPort ∧
      ∃ rest, p.payload = bytes "HTTP/1.1 200 OK\r\nEXT:\r\n" ++ rest :=
  c6_due_response_is_sent_once sampleEnv 1001 samplePending ⟨none, [secondSearch]⟩ rfl
    (by decide)

/-- C7: while a response is pending and not yet due, one call of `_update` does not enter
the parser (its parse phase leaves the object and the transport as they are, so no byte is
read), keeps the response pending with its target address, target port, start time and
delay unchanged, and leaves no datagram behind: every queued datagram is flushed unread. -/
theorem c7_pending_response_is_not_disturbed (E : Env) (t : Nat) (s : Responder)
    (u : UdpContext) (hp : s._pending = true)
    (hnd : subU32 (millis t) s._process_time ≤ s._delay) :
    parsePhase E t s u = (s, u) ∧
    (_update E t s u).1._pending = true ∧
    (_update E t s u).1._respondToAddr = s._respondToAddr ∧
    (_update E t s u).1._respondToPort = s._respondToPort ∧
    (_update E t s u).1._process_time = s._process_time ∧
    (_update E t s u).1._delay = s._delay ∧
    (_update E t s u).2.1.queue = [] ∧ (_update E t s u).2.1.getSize = 0 := by
  refine ⟨parsePhase_pending E t s u hp, ?_⟩
  rw [_update, parsePhase_pending E t s u hp]
  simp only [schedulePhase]
  rw [if_neg (by omega)]
  split <;> simp [drainPhase, hp, drain_empties, UdpContext.getSize]

/-- C7 for the sample pending response at 500 ms with two well-formed search requests of
another sender queued. -/
theorem c7_pending_response_is_not_disturbed_witness :
    parsePhase sampleEnv 500 samplePending ⟨none, [secondSearch, secondSearch]⟩ =
      (samplePending, ⟨none, [secondSearch, secondSearch]⟩) ∧
    (_update sampleEnv 500 samplePending ⟨none, [secondSearch, secondSearch]⟩).1._pending = true ∧
    (_update sampleEnv 500 samplePending ⟨none, [secondSearch, secondSearch]⟩).1._respondToAddr =
      samplePending._respondToAddr ∧
    (_update sampleEnv 500 samplePending ⟨none, [secondSearch, secondSearch]⟩).1._respondToPort =
      samplePending._respondToPort ∧
    (_update sampleEnv 500 samplePending ⟨none, [secondSearch, secondSearch]⟩).1._process_time =
      samplePending._process_time ∧
    (_update sampleEnv 500 samplePending ⟨none, [secondSearch, secondSearch]⟩).1._delay =
      samplePending._delay ∧
    (_update sampleEnv 500 samplePending ⟨none, [secondSearch, secondSearch]⟩).2.1.queue = [] ∧
    (_update sampleEnv 500 samplePending ⟨none, [secondSearch, secondSearch]⟩).2.1.getSize = 0 :=
  c7_pending_response_is_not_disturbed sampleEnv 500 samplePending
    ⟨none, [secondSearch, secondSearch]⟩ rfl (by decide)

theorem update_idle (E : Env) (t : Nat) (s : Responder) (cur : Option Datagram)
    (hp : s._pending = false) (hn : s._notify_time ≠ 0)
    (hi : subU32 (millis t) s._notify_time ≤ 1200000) :
    _update E t s ⟨cur, []⟩ = (s, ⟨none, []⟩, []) := by
  rw [_update, parsePhase_idle E t s cur hp]
  simp only [schedulePhase, interval_ms]
  rw [if_neg (by simp [hp]), if_neg (by omega)]
  simp [drainPhase, hp]

theorem updates_idle (E : Env) (t : Nat) (s : Responder) (hp : s._pending = false)
    (hn : s._notify_time = millis t) (ht : millis t ≠ 0) :
    ∀ ts : List Nat, (∀ t2 ∈ ts, t ≤ t2 ∧ t2 - t < 1200000) →
      updates E ts s ⟨none, []⟩ = (s, ⟨none, []⟩, []) := by
  intro ts
  induction ts with
  | nil => intro _; rfl
  | cons t2 ts ih =>
    intro h
    obtain ⟨h1, h2⟩ := h t2 (by simp)
    have hsub : subU32 (millis t2) s._notify_time ≤ 1200000 := by
      rw [hn, subU32_millis t t2 h1 (by omega)]; omega
    have hu := update_idle E t2 s none hp (by rw [hn]; exact ht) hsub
    simp only [updates, hu]
    rw [ih (fun x hx => h x (by simp [hx]))]
    rfl

/-- C8 as stated fails at `t = 0`: the first call records `_notify_time = millis() = 0`, which
still reads as never announced, so the call one millisecond later announces again. -/
theorem c8_counterexample :
    sampleResponder._pending = false ∧ sampleResponder._notify_time = 0 ∧
    (_update sampleEnv 0 sampleResponder ⟨none, []⟩).2.2 =
      [_send { sampleResponder with _notify_time := 0 } ssdp_method_t.NOTIFY] ∧
    (_update sampleEnv 0 sampleResponder ⟨none, []⟩).1._notify_time = 0 ∧
    1 - 0 < 1200 * 1000 ∧
    (_update sampleEnv 1 (_update sampleEnv 0 sampleResponder ⟨none, []⟩).1
        (_update sampleEnv 0 sampleResponder ⟨none, []⟩).2.1).2.2 =
      [_send { sampleResponder with _notify_time := 1 } ssdp_method_t.NOTIFY] := by
  have h0 : _update sampleEnv 0 sampleResponder ⟨none, []⟩ =
      ({ sampleResponder with _notify_time := 0 }, ⟨none, []⟩,
        [_send { sampleResponder with _notify_time := 0 } ssdp_method_t.NOTIFY]) := by
    rw [_update, parsePhase_idle _ _ _ _ rfl]
    rfl
  refine ⟨rfl, rfl, by rw [h0], by rw [h0], by decide, ?_⟩
  rw [h0]
  simp only []
  rw [_update, parsePhase_idle _ _ _ _ rfl]
  rfl

/-- C8 (as amended): from a state with no pending response and `_notify_time = 0`, with no
datagram queued, a call of `_update` at a time `t` whose `millis()` is not 0 sends exactly
one `NOTIFY ... ssdp:alive` to 239.255.255.250:1900 and records `millis t` in `_notify_time`;
and calls of `_update` at any later times `t2` with `t2 - t` below the 1200-second interval
(still no datagram) send nothing and leave the object as it is. -/
theorem c8_first_tick_announces_once (E : Env) (t : Nat) (s : Responder)
    (cur : Option Datagram) (hp : s._pending = false) (hn : s._notify_time = 0)
    (ht : millis t ≠ 0) :
    _update E t s ⟨cur, []⟩ =
      ({ s with _notify_time := millis t }, ⟨none, []⟩,
        [_send { s with _notify_time := millis t } ssdp_method_t.NOTIFY]) ∧
    (_send { s with _notify_time := millis t } ssdp_method_t.NOTIFY).addr = mcast ∧
    ipstr mcast = bytes "239.255.255.250" ∧
    (_send { s with _notify_time := millis t } ssdp_method_t.NOTIFY).port = 1900 ∧
    (∃ rest, (_send { s with _notify_time := millis t } ssdp_method_t.NOTIFY).payload =
      bytes "NOTIFY * HTTP/1.1\r\nHOST: 239.255.255.250:1900\r\nNTS: ssdp:alive\r\n" ++ rest) ∧
    ∀ ts : List Nat, (∀ t2 ∈ ts, t ≤ t2 ∧ t2 - t < SSDP_INTERVAL * 1000) →
      updates E ts { s with _notify_time := millis t } ⟨none, []⟩ =
        ({ s with _notify_time := millis t }, ⟨none, []⟩, []) := by
  refine ⟨?_, rfl, by decide, rfl, ?_, ?_⟩
  · rw [_update, parsePhase_idle E t s cur hp]
    simp only [schedulePhase]
    rw [if_neg (by simp [hp]), if_pos (Or.inl hn)]
    simp [drainPhase, hp]
  · simp only [_send, packetText, _ssdp_notify_template, List.append_assoc]
    exact ⟨_, rfl⟩
  · intro ts h
    rw [interval_ms] at h
    exact updates_idle E t { s with _notify_time := millis t } hp rfl ht ts h

/-- C8 (as amended) for the sample responder and a first call at 5000 ms. -/
theorem c8_first_tick_announces_once_witness :
    _update sampleEnv 5000 sampleResponder ⟨none, []⟩ =
      ({ sampleResponder with _notify_time := millis 5000 }, ⟨none, []⟩,
        [_send { sampleResponder with _notify_time := millis 5000 } ssdp_method_t.NOTIFY]) ∧
    (_send { sampleResponder with _notify_time := millis 5000 } ssdp_method_t.NOTIFY).addr =
      mcast ∧
    ipstr mcast = bytes "239.255.255.250" ∧
    (_send { sampleResponder with _notify_time := millis 5000 } ssdp_method_t.NOTIFY).port =
      1900 ∧
    (∃ rest,
      (_send { sampleResponder with _notify_time := millis 5000 } ssdp_method_t.NOTIFY).payload =
      bytes "NOTIFY * HTTP/1.1\r\nHOST: 239.255.255.250:1900\r\nNTS: ssdp:alive\r\n" ++ rest) ∧
    ∀ ts : List Nat, (∀ t2 ∈ ts, 5000 ≤ t2 ∧ t2 - 5000 < SSDP_INTERVAL * 1000) →
      updates sampleEnv ts { sampleResponder with _notify_time := millis 5000 } ⟨none, []⟩ =
        ({ sampleResponder with _notify_time := millis 5000 }, ⟨none, []⟩, []) :=
  c8_first_tick_announces_once sampleEnv 5000 sampleResponder none rfl rfl (by decide)

theorem schedulePhase_cases (t : Nat) (s : Responder) :
    (schedulePhase t s).2 = [] ∨
    (schedulePhase t s).2 = [_send (schedulePhase t s).1 ssdp_method_t.NONE] ∨
    (schedulePhase t s).2 = [_send (schedulePhase t s).1 ssdp_method_t.NOTIFY] := by
  unfold schedulePhase
  split
  · right; left; rfl
  · split
    · right; right; rfl
    · left; rfl

/-- C9: one call of `_update` sends at most one message, never a search response and an
announcement together; what it sends is either the search response, addressed to the
recorded remote address and port, or the `NOTIFY`, addressed to 239.255.255.250 port 1900. -/
theorem c9_at_most_one_send (E : Env) (t : Nat) (s : Responder) (u : UdpContext) :
    (_update E t s u).2.2.length ≤ 1 ∧
    ((_update E t s u).2.2 = [] ∨
      ((_update E t s u).2.2 = [_send (_update E t s u).1 ssdp_method_t.NONE] ∧
        (_send (_update E t s u).1 ssdp_method_t.NONE).addr = (_update E t s u).1._respondToAddr ∧
        (_send (_update E t s u).1 ssdp_method_t.NONE).port = (_update E t s u).1._respondToPort) ∨
      ((_update E t s u).2.2 = [_send (_update E t s u).1 ssdp_method_t.NOTIFY] ∧
        (_send (_update E t s u).1 ssdp_method_t.NOTIFY).addr = mcast ∧
        (_send (_update E t s u).1 ssdp_method_t.NOTIFY).port = 1900 ∧
        ipstr mcast = bytes "239.255.255.250")) := by
  have h := schedulePhase_cases t (parsePhase E t s u).1
  simp only [_update]
  rcases h with h | h | h
  · exact ⟨by rw [h]; simp, Or.inl h⟩
  · exact ⟨by rw [h]; simp, Or.inr (Or.inl ⟨h, rfl, rfl⟩)⟩
  · exact ⟨by rw [h]; simp, Or.inr (Or.inr ⟨h, rfl, rfl, by decide⟩)⟩

/-- C10 as stated fails: a hidden station interface whose subnet holds the source still gives
its address to `LOCATION`; with no source captured the station address is used although the
source is outside the station subnet; and without station address the access-point address
is used although the source matches the empty station subnet. -/
theorem c10_counterexample :
    (ip_addr_netcmp sampleHiddenStation._respondToAddr sampleHiddenStation._sta.ip
        sampleHiddenStation._sta.netmask = true ∧ sampleHiddenStation._hideSTA = true ∧
      locationAddr sampleHiddenStation = sampleHiddenStation._sta.ip ∧
      locationRule sampleHiddenStation = sampleHiddenStation._ap.ip ∧
      locationAddr sampleHiddenStation ≠ locationRule sampleHiddenStation) ∧
    (sampleResponder._respondToAddr = 0 ∧ sampleResponder._hideSTA = false ∧
      locationAddr sampleResponder = sampleResponder._sta.ip ∧
      locationRule sampleResponder = sampleResponder._ap.ip ∧
      locationAddr sampleResponder ≠ locationRule sampleResponder) ∧
    (sampleNoStation._sta.ip = 0 ∧ sampleNoStation._hideSTA = false ∧
      locationAddr sampleNoStation = sampleNoStation._ap.ip ∧
      locationRule sampleNoStation = sampleNoStation._sta.ip ∧
      locationAddr sampleNoStation ≠ locationRule sampleNoStation) := by
  decide

/-- C10 (as amended): with the station interface visible, the address `_send` writes into
`LOCATION` follows the specification's rule (station address if the source lies in the
station subnet, access-point address otherwise) whenever a source has been captured and the
station interface has an address; it is the station address when no source has been
captured (`_respondToAddr` is 0), and the access-point address when a source has been
captured and the station interface has no address. -/
theorem c10_location_address (s : Responder) (method : ssdp_method_t)
    (hvis : s._hideSTA = false) :
    (s._respondToAddr ≠ 0 → s._sta.ip ≠ 0 → locationAddr s = locationRule s) ∧
    (s._respondToAddr = 0 → locationAddr s = s._sta.ip) ∧
    (s._respondToAddr ≠ 0 → s._sta.ip = 0 → locationAddr s = s._ap.ip) ∧
    ∃ pre post, (_send s method).payload =
      pre ++ bytes "LOCATION: http://" ++ ipstr (locationAddr s) ++ post := by
  refine ⟨?_, ?_, ?_, ?_⟩
  · intro h1 h2
    simp [locationAddr, locationRule, ip_addr_netcmp, h1, h2, hvis]
  · intro h1
    simp [locationAddr, h1]
  · intro h1 h2
    simp [locationAddr, h1, h2]
  · refine ⟨(if method = ssdp_method_t.NONE then _ssdp_response_template
        else _ssdp_notify_template) ++
      bytes "CACHE-CONTROL: max-age=" ++ fmtU SSDP_INTERVAL ++ bytes "\r\n" ++
      bytes "SERVER: ESP8266/1.0 UPNP/1.1 " ++ cstr s._modelName ++ bytes "/" ++
        cstr s._modelNumber ++ bytes "\r\n" ++
      bytes "USN: uuid:" ++ cstr s._uuid ++ bytes "\r\n" ++
      (if method = ssdp_method_t.NONE then bytes "ST" else bytes "NT") ++ bytes ": " ++
        cstr s._deviceType ++ bytes "\r\n",
      bytes ":" ++ fmtU s._port ++ bytes "/" ++ cstr s._schemaURL ++ bytes "\r\n" ++
        bytes "\r\n", ?_⟩
    cases method <;> simp [_send, packetText, List.append_assoc]

/-- C10 (as amended) for the sample pending response, whose source 192.168.1.77 lies in the
subnet of the visible station interface. -/
theorem c10_location_address_witness :
    (samplePending._respondToAddr ≠ 0 → samplePending._sta.ip ≠ 0 →
      locationAddr samplePending = locationRule samplePending) ∧
    (samplePending._respondToAddr = 0 → locationAddr samplePending = samplePending._sta.ip) ∧
    (samplePending._respondToAddr ≠ 0 → samplePending._sta.ip = 0 →
      locationAddr samplePending = samplePending._ap.ip) ∧
    ∃ pre post, (_send samplePending ssdp_method_t.NONE).payload =
      pre ++ bytes "LOCATION: http://" ++ ipstr (locationAddr samplePending) ++ post :=
  c10_location_address samplePending ssdp_method_t.NONE rfl

/-! ## Interface visibility -/

/-- C11 as stated fails: with both interfaces visible `manage(STA_TOGGLE)` hides the station
and `manage(AP_TOGGLE)` hides the access point, although the other interface is not hidden;
and with the access point hidden `manage(STA_TOGGLE)` changes nothing. -/
theorem c11_counterexample :
    (sampleResponder._hideAP = false ∧
      (manage sampleResponder ssdp_manage_t.STA_TOGGLE).1._hideSTA ≠ sampleResponder._hideSTA) ∧
    (sampleResponder._hideSTA = false ∧
      (manage sampleResponder ssdp_manage_t.AP_TOGGLE).1._hideAP ≠ sampleResponder._hideAP) ∧
    (sampleHiddenAP._hideAP = true ∧
      (manage sampleHiddenAP ssdp_manage_t.STA_TOGGLE).1 = sampleHiddenAP) := by
  decide

/-- C11 (as amended): a toggle request for one interface is honoured exactly while the
other interface is visible: `manage(STA_TOGGLE)` flips `_hideSTA` if `_hideAP` is false and
`manage(AP_TOGGLE)` flips `_hideAP` if `_hideSTA` is false; otherwise, and in every other
member, the object is left as it is. -/
theorem c11_toggle_gated_on_other_visible (s : Responder) :
    (manage s ssdp_manage_t.STA_TOGGLE).1 =
      (if s._hideAP = false then { s with _hideSTA := !s._hideSTA } else s) ∧
    (manage s ssdp_manage_t.AP_TOGGLE).1 =
      (if s._hideSTA = false then { s with _hideAP := !s._hideAP } else s) := by
  constructor
  · by_cases h : s._hideAP = false
    · by_cases h2 : s._hideSTA = false <;> simp [manage, h, h2]
    · simp [manage, h]
  · by_cases h : s._hideSTA = false
    · by_cases h2 : s._hideAP = false <;> simp [manage, h, h2]
    · by_cases h2 : s._hideAP = false <;> simp [manage, h, h2]

theorem manage_keeps_one_visible (s : Responder) (m : ssdp_manage_t)
    (h : ¬ (s._hideSTA = true ∧ s._hideAP = true)) :
    ¬ ((manage s m).1._hideSTA = true ∧ (manage s m).1._hideAP = true) := by
  cases hs : s._hideSTA <;> cases ha : s._hideAP <;> cases m <;>
    simp [manage, hs, ha] at h ⊢

theorem manageAll_keeps_one_visible : ∀ (ms : List ssdp_manage_t) (s : Responder),
    ¬ (s._hideSTA = true ∧ s._hideAP = true) →
    ¬ ((manageAll s ms)._hideSTA = true ∧ (manageAll s ms)._hideAP = true) := by
  intro ms
  induction ms with
  | nil => intro s h; exact h
  | cons m ms ih => intro s h; exact ih _ (manage_keeps_one_visible s m h)

/-- C12: starting from the constructor's state, after every finite sequence of `manage`
requests the station and access-point interfaces are not both hidden. -/
theorem c12_never_both_hidden (uuid : List Nat) (sta ap : ip_info) (ms : List ssdp_manage_t) :
    ¬ ((manageAll (constructed uuid sta ap) ms)._hideSTA = true ∧
        (manageAll (constructed uuid sta ap) ms)._hideAP = true) :=
  manageAll_keeps_one_visible ms _ (by simp [constructed])

/-! ## The request line -/

theorem bytes_M_SEARCH_sp : bytes "M-SEARCH " = [77, 45, 83, 69, 65, 82, 67, 72, 32] := by decide

/-- After `M-SEARCH ` the parser is in `URI` with the method text still in the buffer. -/
theorem parse_method (E : Env) (t : Nat) (s : Responder) :
    parseLoop E t (initLoop s) (bytes "M-SEARCH ") =
      ⟨s, ssdp_method_t.SEARCH, states.URI, headers.START, 0, 0,
        [77, 45, 83, 69, 65, 82, 67, 72, 0] ++ List.replicate 55 0,
        [0, 1, 1, 2, 2, 3, 3, 4, 4, 5, 5, 6, 6, 7, 7, 8], 0⟩ := by
  rw [bytes_M_SEARCH_sp]
  simp [parseLoop, step, store, initLoop, strcmpEq, cstr, bytes_M_SEARCH, SSDP_METHOD_SIZE,
    SSDP_BUFFER_SIZE, List.replicate]

theorem step_uri_char (E : Env) (t : Nat) (l : Loop) (c : Nat)
    (hst : l.state = states.URI) (hc : c ≠ 32) :
    step E t l c =
      if l.cursor < 1 then store { l with cr := if c = 13 ∨ c = 10 then (l.cr + 1) % 256 else 0 } c
      else { l with cr := if c = 13 ∨ c = 10 then (l.cr + 1) % 256 else 0 } := by
  obtain ⟨self, method, state, header, cursor, cr, buffer, writes, draws⟩ := l
  simp only at hst
  subst hst
  simp [step, hc, SSDP_URI_SIZE]

/-- Once the one-byte URI field is full, further bytes of the token are dropped. -/
theorem uri_full (E : Env) (t : Nat) : ∀ (cs : List Nat) (l : Loop),
    l.state = states.URI → l.cursor = 1 → (∀ c ∈ cs, c ≠ 32) →
    (parseLoop E t l cs).state = states.URI ∧ (parseLoop E t l cs).cursor = 1 ∧
      (parseLoop E t l cs).buffer = l.buffer ∧ (parseLoop E t l cs).self = l.self := by
  intro cs
  induction cs with
  | nil => intro l hst hcur _; exact ⟨hst, hcur, rfl, rfl⟩
  | cons c cs ih =>
    intro l hst hcur hcs
    have hstep := step_uri_char E t l c hst (hcs c (by simp))
    rw [if_neg (by omega)] at hstep
    obtain ⟨a1, a2, a3, a4⟩ := ih (step E t l c) (by rw [hstep]; exact hst)
      (by rw [hstep]; exact hcur) (fun x hx => hcs x (by simp [hx]))
    rw [parseLoop_cons]
    exact ⟨a1, a2, by rw [a3, hstep], by rw [a4, hstep]⟩

/-- Of the URI token only the first byte reaches the scan buffer. -/
theorem uri_token (E : Env) (t : Nat) (l : Loop) (c : Nat) (cs : List Nat)
    (hst : l.state = states.URI) (hcur : l.cursor = 0) (hlen : l.buffer.length = 64)
    (hu : ∀ x ∈ c :: cs, x ≠ 32) :
    (parseLoop E t l (c :: cs)).state = states.URI ∧ (parseLoop E t l (c :: cs)).self = l.self ∧
      (parseLoop E t l (c :: cs)).buffer = c :: 0 :: l.buffer.drop 2 := by
  have hstep := step_uri_char E t l c hst (hu c (by simp))
  rw [if_pos (by omega)] at hstep
  obtain ⟨a1, _, a3, a4⟩ := uri_full E t cs (step E t l c)
    (by rw [hstep]; simpa [store] using hst) (by rw [hstep]; simp [store, hcur])
    (fun x hx => hu x (by simp [hx]))
  rw [parseLoop_cons]
  refine ⟨a1, by rw [a4, hstep]; simp [store], ?_⟩
  rw [a3, hstep]
  simp only [store, hcur]
  rw [set_set_eq c l.buffer 0 (by omega)]
  simp

theorem parse_method_fields (E : Env) (t : Nat) (s : Responder) :
    (parseLoop E t (initLoop s) (bytes "M-SEARCH ")).state = states.URI ∧
    (parseLoop E t (initLoop s) (bytes "M-SEARCH ")).self = s ∧
    (parseLoop E t (initLoop s) (bytes "M-SEARCH ")).cursor = 0 ∧
    (parseLoop E t (initLoop s) (bytes "M-SEARCH ")).buffer.length = 64 ∧
    strcmpEq (parseLoop E t (initLoop s) (bytes "M-SEARCH ")).buffer (bytes "*") = false := by
  rw [parse_method]
  simp [strcmpEq, cstr, bytes_star, List.takeWhile_cons]

theorem step_uri_space (E : Env) (t : Nat) (l : Loop) (hst : l.state = states.URI) :
    (step E t l 32).state =
        (if strcmpEq l.buffer (bytes "*") then states.PROTO else states.ABORT) ∧
      (step E t l 32).self = l.self ∧ (step E t l 32).cr = 0 ∧
      (step E t l 32).cursor = 0 ∧ (step E t l 32).buffer = l.buffer ∧
      (step E t l 32).header = l.header ∧ (step E t l 32).draws = l.draws := by
  obtain ⟨self, method, state, header, cursor, cr, buffer, writes, draws⟩ := l
  simp only at hst
  subst hst
  simp [step]

theorem strcmp_star_first (c : Nat) (rest : List Nat) (hc : c ≠ 42) :
    strcmpEq (c :: 0 :: rest) (bytes "*") = false := by
  by_cases h0 : c = 0
  · subst h0; simp [strcmpEq, cstr, bytes_star]
  · simp [strcmpEq, cstr, bytes_star, List.takeWhile_cons, h0, hc]

/-- A URI token that is empty or does not begin with `*` sends the parser to `ABORT` at
the space that ends it. -/
theorem parse_uri_reject (E : Env) (t : Nat) (s : Responder) (u rest : List Nat)
    (hu : ∀ c ∈ u, c ≠ 32) (hh : u.head? ≠ some 42) :
    (parseLoop E t (initLoop s) (bytes "M-SEARCH " ++ (u ++ 32 :: rest))).state = states.ABORT ∧
    (parseLoop E t (initLoop s) (bytes "M-SEARCH " ++ (u ++ 32 :: rest))).self =
      if rest = [] then s else { s with _pending := false, _delay := 0 } := by
  obtain ⟨m1, m2, m3, m4, m5⟩ := parse_method_fields E t s
  rw [parseLoop_append, parseLoop_append, parseLoop_cons]
  generalize parseLoop E t (initLoop s) (bytes "M-SEARCH ") = l0 at m1 m2 m3 m4 m5 ⊢
  have key : (parseLoop E t l0 u).state = states.URI ∧ (parseLoop E t l0 u).self = s ∧
      strcmpEq (parseLoop E t l0 u).buffer (bytes "*") = false := by
    cases u with
    | nil => exact ⟨m1, m2, m5⟩
    | cons c cs =>
      obtain ⟨u1, u2, u3⟩ := uri_token E t l0 c cs m1 m3 m4 hu
      exact ⟨u1, by rw [u2, m2], by
        rw [u3]; exact strcmp_star_first c _ (fun h => hh (by simp [h]))⟩
  generalize parseLoop E t l0 u = l1 at key
  obtain ⟨k1, k2, k3⟩ := key
  obtain ⟨p1, p2, _⟩ := step_uri_space E t l1 k1
  rw [k3] at p1
  obtain ⟨a1, a2⟩ := abort_run E t rest (step E t l1 32) p1
  exact ⟨a1, by rw [a2, p2, k2]⟩

/-- A request that stops inside the URI token leaves the object untouched. -/
theorem parse_uri_unfinished (E : Env) (t : Nat) (s : Responder) (u : List Nat)
    (hu : ∀ c ∈ u, c ≠ 32) :
    (parseLoop E t (initLoop s) (bytes "M-SEARCH " ++ u)).self = s := by
  obtain ⟨m1, m2, m3, m4, _⟩ := parse_method_fields E t s
  rw [parseLoop_append]
  generalize parseLoop E t (initLoop s) (bytes "M-SEARCH ") = l0 at m1 m2 m3 m4 ⊢
  cases u with
  | nil => exact m2
  | cons c cs => rw [(uri_token E t l0 c cs m1 m3 m4 hu).2.1, m2]

/-- C14 as stated fails: the URI token `*abc` is not `*`, yet only its first byte is kept
and compared, so the parser goes on to `PROTO` and `KEY` and the blank line sets `_pending`. -/
theorem c14_counterexample :
    bytes "*abc" ≠ bytes "*" ∧
    (parseLoop sampleEnv 5000 (initLoop sampleResponder)
      (bytes "M-SEARCH " ++ bytes "*abc" ++ bytes " " ++ bytes "HTTP/1.1\r\n\r\n")).state =
        states.KEY ∧
    (parsePhase sampleEnv 5000 sampleResponder
      ⟨none, [⟨7, 50000,
        bytes "M-SEARCH " ++ bytes "*abc" ++ bytes " " ++ bytes "HTTP/1.1\r\n\r\n"⟩]⟩).1._pending =
      true := by
  decide

/-- C14 (as amended): for a datagram `M-SEARCH `, a URI token, a space and any further
bytes, if the URI token is empty or its first byte is not `*` (only the first byte of the
token is kept and compared), the parser ends in `ABORT` and no response is pending after
the datagram is consumed. -/
theorem c14_uri_not_starting_with_star_aborts (E : Env) (t : Nat) (s : Responder)
    (cur : Option Datagram) (q : List Datagram) (addr port : Nat) (u rest : List Nat)
    (hp : s._pending = false) (hu : ∀ c ∈ u, c ≠ 32) (hh : u.head? ≠ some 42) :
    (parseLoop E t (initLoop { s with _respondToAddr := addr, _respondToPort := port })
      (bytes "M-SEARCH " ++ (u ++ 32 :: rest))).state = states.ABORT ∧
    (parsePhase E t s
      ⟨cur, ⟨addr, port, bytes "M-SEARCH " ++ (u ++ 32 :: rest)⟩ :: q⟩).1._pending = false := by
  obtain ⟨h1, h2⟩ := parse_uri_reject E t
    { s with _respondToAddr := addr, _respondToPort := port } u rest hu hh
  refine ⟨h1, ?_⟩
  rw [parsePhase_recv E t s cur _ q hp]
  simp only []
  rw [h2]
  by_cases hr : rest = []
  · simp [hr, hp]
  · simp [hr]

/-- C14 (as amended) for the URI token `/index.html`. -/
theorem c14_uri_not_starting_with_star_aborts_witness :
    (parseLoop sampleEnv 5000
      (initLoop { sampleResponder with _respondToAddr := 7, _respondToPort := 50000 })
      (bytes "M-SEARCH " ++ (bytes "/index.html" ++ 32 :: bytes "HTTP/1.1\r\n\r\n"))).state =
        states.ABORT ∧
    (parsePhase sampleEnv 5000 sampleResponder
      ⟨none, [⟨7, 50000,
        bytes "M-SEARCH " ++ (bytes "/index.html" ++ 32 :: bytes "HTTP/1.1\r\n\r\n")⟩]⟩).1._pending =
      false :=
  c14_uri_not_starting_with_star_aborts sampleEnv 5000 sampleResponder none [] 7 50000
    (bytes "/index.html") (bytes "HTTP/1.1\r\n\r\n") rfl (by decide) (by decide)

/-- After `M-SEARCH `, a continuation that does not begin with `*` never sets `_pending`. -/
theorem parse_uri_bad (E : Env) (t : Nat) (s : Responder) (tail : List Nat)
    (hh : tail.head? ≠ some 42) :
    (parseLoop E t (initLoop s) (bytes "M-SEARCH " ++ tail)).self = s ∨
      (parseLoop E t (initLoop s) (bytes "M-SEARCH " ++ tail)).self =
        { s with _pending := false, _delay := 0 } := by
  obtain ⟨hno, hsplit⟩ := methodToken_split tail
  have hhead : (methodToken tail).head? ≠ some 42 := by
    cases tail with
    | nil => simp [methodToken]
    | cons c r =>
      by_cases hc : c = 32
      · subst hc; simp [methodToken]
      · have hc42 : c ≠ 42 := fun h => hh (by simp [h])
        simp [methodToken, List.takeWhile_cons, hc, hc42]
  generalize methodToken tail = tok at hno hsplit hhead
  rcases hsplit with h | ⟨rest, h⟩
  · left
    rw [h]; exact parse_uri_unfinished E t s tok hno
  · rw [h, (parse_uri_reject E t s tok rest hno hhead).2]
    by_cases hr : rest = []
    · left; simp [hr]
    · right; simp [hr]

theorem bytes_M_SEARCH_star : bytes "M-SEARCH *" = bytes "M-SEARCH " ++ [42] := by decide

/-- A NUL-free datagram after which `_pending` is set begins with `M-SEARCH *`. -/
theorem parse_pending_starts (E : Env) (t : Nat) (s : Responder) (d : List Nat)
    (hp : s._pending = false) (hz : ∀ c ∈ d, c ≠ 0)
    (hpend : (parseLoop E t (initLoop s) d).self._pending = true) :
    ∃ r, d = bytes "M-SEARCH *" ++ r := by
  have hfalse : ∀ x : Responder, (x = s ∨ x = { s with _pending := false, _delay := 0 }) →
      x._pending = false := by
    intro x hx
    rcases hx with h | h <;> rw [h]
    exact hp
  by_cases hm : methodToken d = bytes "M-SEARCH"
  · obtain ⟨_, hsplit⟩ := methodToken_split d
    rw [hm] at hsplit
    rcases hsplit with h | ⟨rest, h⟩
    · exfalso
      obtain ⟨_, _, m3, _⟩ := method_run E t (bytes "M-SEARCH") (initLoop s) [] rfl
        (initLoop_filled s) (by simp) (by decide)
      rw [h, m3] at hpend
      simp [initLoop, hp] at hpend
    · have hd : d = bytes "M-SEARCH " ++ rest := by
        rw [h, bytes_M_SEARCH_sp, bytes_M_SEARCH]; rfl
      cases rest with
      | nil =>
        exfalso
        rw [hd, List.append_nil, (parse_method_fields E t s).2.1, hp] at hpend
        exact Bool.false_ne_true hpend
      | cons c r =>
        by_cases hc : c = 42
        · exact ⟨r, by rw [hd, hc, bytes_M_SEARCH_star, List.append_assoc]; rfl⟩
        · exfalso
          have := hfalse _ (parse_uri_bad E t s (c :: r) (by simp [hc]))
          rw [← hd, hpend] at this
          exact Bool.false_ne_true this.symm
  · exfalso
    have := hfalse _ (parse_other_method E t s d
      (fun c hc => hz c (List.takeWhile_subset _ hc)) hm)
    rw [hpend] at this
    exact Bool.false_ne_true this.symm

/-- C18: a NUL-free datagram that begins with `M-SEARCH ` and whose next byte is not `*`
leaves no response pending; and whenever the parse of a NUL-free datagram leaves a response
pending, the datagram begins with the ten bytes `M-SEARCH *`. -/
theorem c18_pending_needs_star_uri (E : Env) (t : Nat) (s : Responder)
    (cur : Option Datagram) (q : List Datagram) (addr port : Nat) (d : List Nat)
    (hp : s._pending = false) (hz : ∀ c ∈ d, c ≠ 0) :
    (∀ (c : Nat) (r : List Nat), d = bytes "M-SEARCH " ++ c :: r → c ≠ 42 →
      (parsePhase E t s ⟨cur, ⟨addr, port, d⟩ :: q⟩).1._pending = false) ∧
    ((parsePhase E t s ⟨cur, ⟨addr, port, d⟩ :: q⟩).1._pending = true →
      ∃ r, d = bytes "M-SEARCH *" ++ r ∧ d.take 10 = bytes "M-SEARCH *") := by
  rw [parsePhase_recv E t s cur _ q hp]
  simp only []
  constructor
  · intro c r hd hc
    rw [hd]
    rcases parse_uri_bad E t { s with _respondToAddr := addr, _respondToPort := port }
      (c :: r) (by simp [hc]) with h | h
    · rw [h]; exact hp
    · rw [h]
  · intro hpend
    obtain ⟨r, hr⟩ := parse_pending_starts E t
      { s with _respondToAddr := addr, _respondToPort := port } d hp hz hpend
    refine ⟨r, hr, ?_⟩
    rw [hr]
    have : (bytes "M-SEARCH *").length = 10 := by decide
    rw [List.take_append_of_le_length (by omega), List.take_of_length_le (by omega)]

/-- C18 for a request with the URI `/x`. -/
theorem c18_pending_needs_star_uri_witness :
    (∀ (c : Nat) (r : List Nat), bytes "M-SEARCH /x HTTP/1.1\r\n\r\n" = bytes "M-SEARCH " ++ c :: r →
      c ≠ 42 →
      (parsePhase sampleEnv 5000 sampleResponder
        ⟨none, [⟨7, 50000, bytes "M-SEARCH /x HTTP/1.1\r\n\r\n"⟩]⟩).1._pending = false) ∧
    ((parsePhase sampleEnv 5000 sampleResponder
        ⟨none, [⟨7, 50000, bytes "M-SEARCH /x HTTP/1.1\r\n\r\n"⟩]⟩).1._pending = true →
      ∃ r, bytes "M-SEARCH /x HTTP/1.1\r\n\r\n" = bytes "M-SEARCH *" ++ r ∧
        (bytes "M-SEARCH /x HTTP/1.1\r\n\r\n").take 10 = bytes "M-SEARCH *") :=
  c18_pending_needs_star_uri sampleEnv 5000 sampleResponder none [] 7 50000
    (bytes "M-SEARCH /x HTTP/1.1\r\n\r\n") rfl (by decide)

/-! ## Requests without headers -/

theorem bytes_M_SEARCH_star_sp :
    bytes "M-SEARCH * " = [77, 45, 83, 69, 65, 82, 67, 72, 32, 42, 32] := by decide

/-- After `M-SEARCH * ` the parser is in `PROTO`, the object untouched. -/
theorem parse_method_uri (E : Env) (t : Nat) (s : Responder) :
    (parseLoop E t (initLoop s) (bytes "M-SEARCH * ")).state = states.PROTO ∧
    (parseLoop E t (initLoop s) (bytes "M-SEARCH * ")).cr = 0 ∧
    (parseLoop E t (initLoop s) (bytes "M-SEARCH * ")).self = s := by
  rw [bytes_M_SEARCH_star_sp]
  simp [parseLoop, step, store, initLoop, strcmpEq, cstr, bytes_M_SEARCH, bytes_star,
    SSDP_METHOD_SIZE, SSDP_URI_SIZE, SSDP_BUFFER_SIZE, List.replicate]

/-- In `PROTO` bytes other than CR and LF are discarded without any effect. -/
theorem proto_run (E : Env) (t : Nat) : ∀ (p : List Nat) (l : Loop),
    l.state = states.PROTO → l.cr = 0 → (∀ c ∈ p, c ≠ 13 ∧ c ≠ 10) →
    parseLoop E t l p = l := by
  intro p
  induction p with
  | nil => intro l _ _ _; rfl
  | cons c cs ih =>
    intro l hst hcr hp
    have hc := hp c (by simp)
    have hstep : step E t l c = l := by
      obtain ⟨self, method, state, header, cursor, cr, buffer, writes, draws⟩ := l
      simp only at hst hcr
      subst hst hcr
      simp [step, hc.1, hc.2]
    rw [parseLoop_cons, hstep]
    exact ih l hst hcr (fun x hx => hp x (by simp [hx]))

/-- The end of the request line followed at once by the blank line: the second
line-terminator byte moves to `KEY`, the fourth sets `_pending`. -/
theorem proto_blank (E : Env) (t : Nat) (l : Loop) (hst : l.state = states.PROTO)
    (hcr : l.cr = 0) :
    (parseLoop E t l [13, 10, 13, 10]).state = states.KEY ∧
    (parseLoop E t l [13, 10, 13, 10]).self =
      { l.self with _pending := true, _process_time := millis t } := by
  obtain ⟨self, method, state, header, cursor, cr, buffer, writes, draws⟩ := l
  simp only at hst hcr
  subst hst hcr
  simp [parseLoop, step]

/-- C19: for every protocol text `p` free of CR and LF, the datagram `M-SEARCH * ` + `p` +
`\r\n\r\n`, parsed while no response is pending, ends in `KEY` with `_pending` set,
`_process_time` taken and the sender's address and port recorded: no `ST` header is needed. -/
theorem c19_request_without_headers_is_answered (E : Env) (t : Nat) (s : Responder)
    (cur : Option Datagram) (q : List Datagram) (addr port : Nat) (p : List Nat)
    (hp : s._pending = false) (hcl : ∀ c ∈ p, c ≠ 13 ∧ c ≠ 10) :
    (parseLoop E t (initLoop { s with _respondToAddr := addr, _respondToPort := port })
      (bytes "M-SEARCH * " ++ p ++ bytes "\r\n\r\n")).state = states.KEY ∧
    (parsePhase E t s
      ⟨cur, ⟨addr, port, bytes "M-SEARCH * " ++ p ++ bytes "\r\n\r\n"⟩ :: q⟩).1 =
      { s with _pending := true, _process_time := millis t, _respondToAddr := addr
               _respondToPort := port } := by
  have hb : bytes "\r\n\r\n" = [13, 10, 13, 10] := by decide
  obtain ⟨m1, m2, m3⟩ := parse_method_uri E t
    { s with _respondToAddr := addr, _respondToPort := port }
  have hrun : parseLoop E t (initLoop { s with _respondToAddr := addr, _respondToPort := port })
      (bytes "M-SEARCH * " ++ p ++ bytes "\r\n\r\n") =
      parseLoop E t (parseLoop E t
        (initLoop { s with _respondToAddr := addr, _respondToPort := port })
        (bytes "M-SEARCH * ")) [13, 10, 13, 10] := by
    rw [parseLoop_append, parseLoop_append, proto_run E t p _ m1 m2 hcl, hb]
  obtain ⟨b1, b2⟩ := proto_blank E t _ m1 m2
  refine ⟨by rw [hrun]; exact b1, ?_⟩
  rw [parsePhase_recv E t s cur _ q hp]
  simp only []
  rw [hrun, b2, m3]

/-- C19 for the protocol text `HTTP/1.1`. -/
theorem c19_request_without_headers_is_answered_witness :
    (parseLoop sampleEnv 5000
      (initLoop { sampleResponder with _respondToAddr := 7, _respondToPort := 50000 })
      (bytes "M-SEARCH * " ++ bytes "HTTP/1.1" ++ bytes "\r\n\r\n")).state = states.KEY ∧
    (parsePhase sampleEnv 5000 sampleResponder
      ⟨none, [⟨7, 50000, bytes "M-SEARCH * " ++ bytes "HTTP/1.1" ++ bytes "\r\n\r\n"⟩]⟩).1 =
      { sampleResponder with _pending := true, _process_time := millis 5000
                             _respondToAddr := 7, _respondToPort := 50000 } :=
  c19_request_without_headers_is_answered sampleEnv 5000 sampleResponder none [] 7 50000
    (bytes "HTTP/1.1") rfl (by decide)

/-! ## A search target equal to the device type -/

/-- C16 at the failing input: in `abortAtEnd` the parser enters `ABORT` on the last byte
(it is still in `VALUE` one byte earlier), and the datagram ends with `_pending` set and
`_delay = 2000` kept; 2001 ms later `_update` sends the search response to the sender of
the rejected request. With the blank line appended, `ABORT` does clear both. -/
theorem c16_abort_on_last_byte_is_not_cleared :
    (parseLoop sampleEnv 5000 (initLoop sampleResponder) abortAtEnd.dropLast).state =
      states.VALUE ∧
    (parseLoop sampleEnv 5000 (initLoop sampleResponder) abortAtEnd).state = states.ABORT ∧
    (parseLoop sampleEnv 5000 (initLoop sampleResponder) abortAtEnd).self._pending = true ∧
    (parseLoop sampleEnv 5000 (initLoop sampleResponder) abortAtEnd).self._delay = 2000 ∧
    (_update sampleEnv 5000 sampleResponder ⟨none, [⟨7, 50000, abortAtEnd⟩]⟩).1._pending = true ∧
    (_update sampleEnv 7001
        (_update sampleEnv 5000 sampleResponder ⟨none, [⟨7, 50000, abortAtEnd⟩]⟩).1
        ⟨none, []⟩).2.2.map (fun p => (p.addr, p.port)) = [(7, 50000)] ∧
    (parseLoop sampleEnv 5000 (initLoop sampleResponder)
      (abortAtEnd ++ bytes "\r\n")).self._pending = false ∧
    (parseLoop sampleEnv 5000 (initLoop sampleResponder)
      (abortAtEnd ++ bytes "\r\n")).self._delay = 0 := by
  decide

/-- C17 at the failing input: the header `FOO` is none of the recognised names, yet with the
value `STx` the line is taken for an `ST` header and the request ends in `ABORT` with no
response pending, while with the value `bar` the same request ends with a response pending;
and with the value `MXx` completing the line overwrites the delay recorded for `MX: 3`. -/
theorem c17_header_recognised_from_value :
    (parseLoop sampleEnv 5000 (initLoop sampleResponder) (searchWithFoo "bar")).self._pending =
      true ∧
    (parseLoop sampleEnv 5000 (initLoop sampleResponder)
      (bytes "M-SEARCH * HTTP/1.1\r\nFOO: STx\r\n")).state = states.ABORT ∧
    (parseLoop sampleEnv 5000 (initLoop sampleResponder) (searchWithFoo "STx")).state =
      states.ABORT ∧
    (parseLoop sampleEnv 5000 (initLoop sampleResponder) (searchWithFoo "STx")).self._pending =
      false ∧
    (parseLoop sampleEnv 5000 (initLoop sampleResponder)
      (bytes "M-SEARCH * HTTP/1.1\r\nMX: 3\r\n")).self._delay = 2000 ∧
    (parseLoop sampleEnv 5000 (initLoop sampleResponder)
      (bytes "M-SEARCH * HTTP/1.1\r\nMX: 3\r\nFOO: MXx\r\n")).self._delay = 0 := by
  decide

/-! ## The rendered message -/

theorem occurs_end (x p : List Nat) : Occurs x (p ++ x) := ⟨p, [], by simp⟩

theorem occurs_left (x l r : List Nat) (h : Occurs x l) : Occurs x (l ++ r) := by
  obtain ⟨pre, post, rfl⟩ := h
  exact ⟨pre, post ++ r, by simp⟩

theorem ipstr_octets (x a b c d : Nat) (ha : a < 256) (hb : b < 256) (hc : c < 256)
    (hd : d < 256) (hx : x = a + 256 * (b + 256 * (c + 256 * d))) :
    ipstr x = dotted a b c d := by
  have h1 : x % 256 = a := by omega
  have h2 : x / 256 % 256 = b := by omega
  have h3 : x / 65536 % 256 = c := by omega
  have h4 : x / 16777216 % 256 = d := by omega
  simp only [ipstr, dotted, h1, h2, h3, h4]

theorem cache_line : bytes "CACHE-CONTROL: max-age=" ++ fmtU SSDP_INTERVAL ++ bytes "\r\n" =
    bytes "CACHE-CONTROL: max-age=1200\r\n" := by decide

theorem st_label : bytes "ST" ++ bytes ": " = bytes "ST: " := by decide

theorem nt_label : bytes "NT" ++ bytes ": " = bytes "NT: " := by decide

/-- The two messages `_send` renders, line by line. -/
theorem packetText_lines (s : Responder) (a b c d : Nat) (ha : a < 256) (hb : b < 256)
    (hc : c < 256) (hd : d < 256) (hloc : locationAddr s = a + 256 * (b + 256 * (c + 256 * d))) :
    packetText s ssdp_method_t.NONE =
      bytes "HTTP/1.1 200 OK\r\nEXT:\r\n" ++
      bytes "CACHE-CONTROL: max-age=1200\r\n" ++
      bytes "SERVER: ESP8266/1.0 UPNP/1.1 " ++ cstr s._modelName ++ bytes "/" ++
        cstr s._modelNumber ++ bytes "\r\n" ++
      bytes "USN: uuid:" ++ cstr s._uuid ++ bytes "\r\n" ++
      bytes "ST: " ++ cstr s._deviceType ++ bytes "\r\n" ++
      bytes "LOCATION: http://" ++ dotted a b c d ++ bytes ":" ++ fmtU s._port ++ bytes "/" ++
        cstr s._schemaURL ++ bytes "\r\n" ++
      bytes "\r\n" ∧
    packetText s ssdp_method_t.NOTIFY =
      bytes "NOTIFY * HTTP/1.1\r\nHOST: 239.255.255.250:1900\r\nNTS: ssdp:alive\r\n" ++
      bytes "CACHE-CONTROL: max-age=1200\r\n" ++
      bytes "SERVER: ESP8266/1.0 UPNP/1.1 " ++ cstr s._modelName ++ bytes "/" ++
        cstr s._modelNumber ++ bytes "\r\n" ++
      bytes "USN: uuid:" ++ cstr s._uuid ++ bytes "\r\n" ++
      bytes "NT: " ++ cstr s._deviceType ++ bytes "\r\n" ++
      bytes "LOCATION: http://" ++ dotted a b c d ++ bytes ":" ++ fmtU s._port ++ bytes "/" ++
        cstr s._schemaURL ++ bytes "\r\n" ++
      bytes "\r\n" := by
  have hip := ipstr_octets (locationAddr s) a b c d ha hb hc hd hloc
  constructor
  · simp only [packetText, if_true, _ssdp_response_template, hip]
    rw [← cache_line, ← st_label]
    simp only [List.append_assoc]
  · simp only [packetText, _ssdp_notify_template, hip]
    rw [if_neg (by decide), if_neg (by decide), ← cache_line, ← nt_label]
    simp only [List.append_assoc]

/-- C13: for every device profile and chosen interface address `a.b.c.d`, the message
`_send` hands to the transport is exactly the framing block (`HTTP/1.1 200 OK`, `EXT:` for
a search response; `NOTIFY * HTTP/1.1`, `HOST: 239.255.255.250:1900`, `NTS: ssdp:alive` for
an announcement), then the lines `CACHE-CONTROL: max-age=1200`, `SERVER: ESP8266/1.0
UPNP/1.1 modelName/modelNumber`, `USN: uuid:` uuid, `ST: ` (response) or `NT: `
(announcement) deviceType, `LOCATION: http://a.b.c.d:port/schemaPath`, and an empty line;
so deviceType, uuid, the dotted-decimal address, the decimal port and the schema path each
appear verbatim in it. -/
theorem c13_rendered_message (s : Responder) (a b c d : Nat) (ha : a < 256) (hb : b < 256)
    (hc : c < 256) (hd : d < 256) (hloc : locationAddr s = a + 256 * (b + 256 * (c + 256 * d))) :
    (_send s ssdp_method_t.NONE).payload =
      bytes "HTTP/1.1 200 OK\r\nEXT:\r\n" ++
      bytes "CACHE-CONTROL: max-age=1200\r\n" ++
      bytes "SERVER: ESP8266/1.0 UPNP/1.1 " ++ cstr s._modelName ++ bytes "/" ++
        cstr s._modelNumber ++ bytes "\r\n" ++
      bytes "USN: uuid:" ++ cstr s._uuid ++ bytes "\r\n" ++
      bytes "ST: " ++ cstr s._deviceType ++ bytes "\r\n" ++
      bytes "LOCATION: http://" ++ dotted a b c d ++ bytes ":" ++ fmtU s._port ++ bytes "/" ++
        cstr s._schemaURL ++ bytes "\r\n" ++
      bytes "\r\n" ∧
    (_send s ssdp_method_t.NOTIFY).payload =
      bytes "NOTIFY * HTTP/1.1\r\nHOST: 239.255.255.250:1900\r\nNTS: ssdp:alive\r\n" ++
      bytes "CACHE-CONTROL: max-age=1200\r\n" ++
      bytes "SERVER: ESP8266/1.0 UPNP/1.1 " ++ cstr s._modelName ++ bytes "/" ++
        cstr s._modelNumber ++ bytes "\r\n" ++
      bytes "USN: uuid:" ++ cstr s._uuid ++ bytes "\r\n" ++
      bytes "NT: " ++ cstr s._deviceType ++ bytes "\r\n" ++
      bytes "LOCATION: http://" ++ dotted a b c d ++ bytes ":" ++ fmtU s._port ++ bytes "/" ++
        cstr s._schemaURL ++ bytes "\r\n" ++
      bytes "\r\n" ∧
    (∀ m : ssdp_method_t, m = ssdp_method_t.NONE ∨ m = ssdp_method_t.NOTIFY →
      Occurs (cstr s._deviceType) (_send s m).payload ∧
      Occurs (cstr s._uuid) (_send s m).payload ∧
      Occurs (dotted a b c d) (_send s m).payload ∧
      Occurs (fmtU s._port) (_send s m).payload ∧
      Occurs (cstr s._schemaURL) (_send s m).payload) ∧
    digitsValue (fmtU s._port) = s._port ∧ digitsValue (fmtU a) = a ∧
    digitsValue (fmtU b) = b ∧ digitsValue (fmtU c) = c ∧ digitsValue (fmtU d) = d := by
  obtain ⟨h1, h2⟩ := packetText_lines s a b c d ha hb hc hd hloc
  have p1 : (_send s ssdp_method_t.NONE).payload = packetText s ssdp_method_t.NONE := rfl
  have p2 : (_send s ssdp_method_t.NOTIFY).payload = packetText s ssdp_method_t.NOTIFY := rfl
  refine ⟨by rw [p1, h1], by rw [p2, h2], ?_, digitsValue_fmtU _, digitsValue_fmtU _,
    digitsValue_fmtU _, digitsValue_fmtU _, digitsValue_fmtU _⟩
  intro m hm
  rcases hm with hm | hm
  · rw [hm, p1, h1]
    refine ⟨?_, ?_, ?_, ?_, ?_⟩ <;>
      repeat (first | with_reducible exact occurs_end _ _ | with_reducible apply occurs_left)
  · rw [hm, p2, h2]
    refine ⟨?_, ?_, ?_, ?_, ?_⟩ <;>
      repeat (first | with_reducible exact occurs_end _ _ | with_reducible apply occurs_left)

/-- The search response of the sample pending responder, in full. -/
theorem sample_response_text :
    (_send samplePending ssdp_method_t.NONE).payload =
      bytes "HTTP/1.1 200 OK\r\nEXT:\r\nCACHE-CONTROL: max-age=1200\r\nSERVER: ESP8266/1.0 UPNP/1.1 /\r\nUSN: uuid:38323636-4558-4dda-9188-cda0e6012345\r\nST: upnp:rootdevice\r\nLOCATION: http://192.168.1.10:80/description.xml\r\n\r\n" := by
  decide!

/-- The announcement of the sample responder, in full. -/
theorem sample_notify_text :
    (_send sampleNoStation ssdp_method_t.NOTIFY).payload =
      bytes "NOTIFY * HTTP/1.1\r\nHOST: 239.255.255.250:1900\r\nNTS: ssdp:alive\r\nCACHE-CONTROL: max-age=1200\r\nSERVER: ESP8266/1.0 UPNP/1.1 /\r\nUSN: uuid:38323636-4558-4dda-9188-cda0e6012345\r\nNT: upnp:rootdevice\r\nLOCATION: http://192.168.4.1:80/description.xml\r\n\r\n" := by
  decide!

/-- C13 for the sample pending responder, whose `LOCATION` address is 192.168.1.10. -/
theorem c13_rendered_message_witness :
    (_send samplePending ssdp_method_t.NONE).payload =
      bytes "HTTP/1.1 200 OK\r\nEXT:\r\n" ++
      bytes "CACHE-CONTROL: max-age=1200\r\n" ++
      bytes "SERVER: ESP8266/1.0 UPNP/1.1 " ++ cstr samplePending._modelName ++ bytes "/" ++
        cstr samplePending._modelNumber ++ bytes "\r\n" ++
      bytes "USN: uuid:" ++ cstr samplePending._uuid ++ bytes "\r\n" ++
      bytes "ST: " ++ cstr samplePending._deviceType ++ bytes "\r\n" ++
      bytes "LOCATION: http://" ++ dotted 192 168 1 10 ++ bytes ":" ++ fmtU samplePending._port ++
        bytes "/" ++ cstr samplePending._schemaURL ++ bytes "\r\n" ++
      bytes "\r\n" ∧
    dotted 192 168 1 10 = bytes "192.168.1.10" ∧
    Occurs (bytes "192.168.1.10") (_send samplePending ssdp_method_t.NOTIFY).payload :=
  ⟨(c13_rendered_message samplePending 192 168 1 10 (by decide) (by decide) (by decide)
      (by decide) (by decide)).1,
    by decide,
    ((c13_rendered_message samplePending 192 168 1 10 (by decide) (by decide) (by decide)
      (by decide) (by decide)).2.2.1 ssdp_method_t.NOTIFY (Or.inr rfl)).2.2.1⟩

end SSDPBoth
